import Mathlib

/-!
Verification development for the MaherDuit PDF statement-parsing service
(`pdf_parser.py`).  The parsing engine is embedded shallowly:

* Python strings are `List Char` (`Str`); bytes-level/unicode corner cases
  outside ASCII are not exercised by the statements parsed here.
* Decimal amounts (`float(...)` of digit strings such as `1,234.56`) are
  modelled exactly as integer cents (`ℤ`, the value multiplied by 100):
  every amount the engine parses has exactly two decimal digits, and every
  operation it performs on amounts (negation, absolute value, comparison,
  summation, rounding to two decimal places) stays inside that grid, so
  the cents encoding loses nothing.
* The `re` regular-expression calls are modelled by a small backtracking
  engine (`mrun`) over an explicit regex AST, with Python's leftmost /
  greedy / lazy alternative ordering and capture groups; `re.search` and
  `re.match` are derived from it.  The engine is fueled; the fuel below is
  ample for every pattern of the source (all repeated sub-patterns consume
  at least one character per iteration).
* `pdfplumber` text extraction is I/O and sits outside the engine: parsers
  take the already-extracted pages, each page a list of raw lines
  (Python `page.extract_text().split('\n')`).
* Python exceptions that escape a parser are modelled with `Except`;
  exceptions caught locally (`try/except ValueError: continue`) are
  modelled with `Option`.
-/

namespace PdfService

abbrev Str := List Char

/-- Python whitespace for `str.strip` and the regex class `\s` (ASCII part). -/
def pySpace (c : Char) : Bool :=
  c = ' ' || c = '\t' || c = '\n' || c = '\r' || c = '\x0b' || c = '\x0c'

/-- Python `str.strip()`. -/
def pyStrip (s : Str) : Str :=
  ((s.dropWhile pySpace).reverse.dropWhile pySpace).reverse

/-- Python `str.lower()` (ASCII). -/
def pyLower (s : Str) : Str := s.map Char.toLower

/-- Python `str.upper()` (ASCII). -/
def pyUpper (s : Str) : Str := s.map Char.toUpper

/-- Boolean list-prefix test. -/
def isPrefixB : Str → Str → Bool
  | [], _ => true
  | _ :: _, [] => false
  | a :: as, b :: bs => a == b && isPrefixB as bs

/-- Python's substring test `needle in hay`. -/
def strIn (n : Str) : Str → Bool
  | [] => n.isEmpty
  | s@(_ :: t) => isPrefixB n s || strIn n t

/-- Value of a string of decimal digits. -/
def digitsToNat (s : Str) : Nat :=
  s.foldl (fun n c => n * 10 + (c.toNat - 48)) 0

/-- Python `float(...)` on the (comma-free) strings the parsers feed it,
returned in integer cents.  The accepted shapes are `digits`,
`digits.digits`, `.digits` or `digits.` with optional surrounding
whitespace and at most two fractional digits — exactly the shapes the
amount regexes (ending in `\.\d{2}`) can produce; anything else (in
particular a second dot, as in `1.234.56`) raises `ValueError`, modelled as
`none`.  Signs/exponents never occur here. -/
def pyFloat? (s : Str) : Option ℤ :=
  let t := pyStrip s
  let ip := t.takeWhile (fun c => c ≠ '.')
  let rest := t.dropWhile (fun c => c ≠ '.')
  match rest with
  | [] =>
    if ip ≠ [] && ip.all Char.isDigit then some (digitsToNat ip * 100) else none
  | _ :: fp =>
    if (ip ≠ [] || fp ≠ []) && ip.all Char.isDigit && fp.all Char.isDigit &&
       fp.length ≤ 2 then
      some (digitsToNat ip * 100 + digitsToNat fp * 10 ^ (2 - fp.length))
    else none

/-- `float` of a regex-matched amount after `.replace(',', '')`; the match
shape `[\d,]+\.\d{2}` makes the conversion total, so the `none` case is
unreachable for those call sites. -/
def pyFloatAmt (s : Str) : ℤ :=
  (pyFloat? (s.filter (fun c => c ≠ ','))).getD 0

/-- Python `abs`. -/
def pyAbs (i : ℤ) : ℤ := (i.natAbs : ℤ)

/-- Python `round(x, 2)`.  Every amount in this engine is an exact multiple
of `0.01` (an integer cent count), and rounding such a value to two decimal
places returns it unchanged, so on the cents encoding the operation is the
identity. -/
def pyRound2 (cents : ℤ) : ℤ := cents

/-! ## Regular-expression engine -/

/-- Character classes appearing in the source's patterns. -/
inductive CC where
  | digit                      -- `\d`
  | space                      -- `\s`
  | dot                        -- `.` (anything but a newline)
  | upperAlpha                 -- `[A-Z]`
  | upperSpace                 -- `[A-Z\s]`
  | upperAlnum                 -- `[A-Z0-9]`
  | digitOr (cs : List Char)   -- `[\d...]`, e.g. `[\d,]`, `[\d,.]`
  | oneOf (cs : List Char)     -- small literal classes, e.g. `[:-]`
  | lit (c : Char)             -- a literal character
deriving DecidableEq

def CC.test : CC → Char → Bool
  | .digit, c => c.isDigit
  | .space, c => pySpace c
  | .dot, c => c ≠ '\n'
  | .upperAlpha, c => 'A' ≤ c && c ≤ 'Z'
  | .upperSpace, c => ('A' ≤ c && c ≤ 'Z') || pySpace c
  | .upperAlnum, c => ('A' ≤ c && c ≤ 'Z') || c.isDigit
  | .digitOr cs, c => c.isDigit || cs.contains c
  | .oneOf cs, c => cs.contains c
  | .lit a, c => a == c

/-- Regex AST: concatenation, alternation, bounded/unbounded repetition with
greedy or lazy matching, numbered capture groups and the `$` anchor. -/
inductive RE where
  | eps
  | cls (cc : CC)
  | seq (a b : RE)
  | alt (a b : RE)
  | rep (a : RE) (lo : Nat) (hi : Option Nat) (greedy : Bool)
  | grp (n : Nat) (a : RE)
  | eos
deriving DecidableEq

/-- Captures: group number ↦ matched text; the head entry for a number wins
(re-assignment on a later match of the same group). -/
abbrev Caps := List (Nat × Str)

def getCap (n : Nat) (caps : Caps) : Option Str :=
  (caps.find? (fun p => p.1 == n)).map (fun p => p.2)

/-- All ways `r` can match a prefix of `s`, as `(captures, rest)` pairs in
Python's backtracking priority order (first = the match `re` reports). -/
def mrun (fuel : Nat) (r : RE) (s : Str) (caps : Caps) : List (Caps × Str) :=
  match fuel with
  | 0 => []
  | fuel + 1 =>
    match r with
    | .eps => [(caps, s)]
    | .eos => if s.isEmpty then [(caps, s)] else []
    | .cls cc =>
      match s with
      | [] => []
      | c :: rest => if cc.test c then [(caps, rest)] else []
    | .seq a b =>
      (mrun fuel a s caps).flatMap (fun p => mrun fuel b p.2 p.1)
    | .alt a b => mrun fuel a s caps ++ mrun fuel b s caps
    | .grp n a =>
      (mrun fuel a s caps).map
        (fun p => ((n, s.take (s.length - p.2.length)) :: p.1, p.2))
    | .rep a lo hi greedy =>
      if lo ≠ 0 then
        (mrun fuel a s caps).flatMap
          (fun p => mrun fuel (.rep a (lo - 1) (hi.map (· - 1)) greedy) p.2 p.1)
      else
        match hi with
        | some 0 => [(caps, s)]
        | _ =>
          let unroll :=
            (mrun fuel a s caps).flatMap
              (fun p => mrun fuel (.rep a 0 (hi.map (· - 1)) greedy) p.2 p.1)
          if greedy then unroll ++ [(caps, s)] else (caps, s) :: unroll

/-- Ample fuel: every repetition body of the source's patterns consumes at
least one character, so recursion depth is bounded by pattern size times
input length. -/
def reFuel (s : Str) : Nat := (s.length + 2) * 60

/-- A search result: start offset of the whole match, captures, and length
of the whole match (`group(0)`). -/
structure MRes where
  start : Nat
  caps : Caps
  len : Nat
deriving DecidableEq

/-- `re.match(r, s)`: anchored at the start (not at the end). -/
def reMatch (r : RE) (s : Str) : Option Caps :=
  ((mrun (reFuel s) r s []).head?).map (fun p => p.1)

def reSearchFrom (r : RE) : Str → Nat → Option MRes
  | s, i =>
    match (mrun (reFuel s) r s []).head? with
    | some p => some ⟨i, p.1, s.length - p.2.length⟩
    | none =>
      match s with
      | [] => none
      | _ :: t => reSearchFrom r t (i + 1)

/-- `re.search(r, s)`: leftmost match. -/
def reSearch (r : RE) (s : Str) : Option MRes := reSearchFrom r s 0

/-- `m.group(n)`, `None` when the group did not participate. -/
def MRes.cap? (m : MRes) (n : Nat) : Option Str := getCap n m.caps

/-- `m.group(n)` when the group is known to participate. -/
def MRes.cap (m : MRes) (n : Nat) : Str := (getCap n m.caps).getD []

/-! Pattern-building helpers. -/

def RE.cat (l : List RE) : RE := l.foldr .seq .eps

def RE.ofStr (s : Str) : RE := RE.cat (s.map (fun c => .cls (.lit c)))

def chr (c : Char) : RE := .cls (.lit c)

def dQ (n : Nat) : RE := .rep (.cls .digit) n (some n) true   -- `\d{n}`
def d12 : RE := .rep (.cls .digit) 1 (some 2) true            -- `\d{1,2}`
def digitsP : RE := .rep (.cls .digit) 1 none true            -- `\d+`
def spaceP : RE := .rep (.cls .space) 1 none true             -- `\s+`
def spaceS : RE := .rep (.cls .space) 0 none true             -- `\s*`
def dotPlus : RE := .rep (.cls .dot) 1 none true              -- `(.+)` body
def dotPlusLazy : RE := .rep (.cls .dot) 1 none false         -- `(.+?)` body
def dotStarLazy : RE := .rep (.cls .dot) 0 none false         -- `(.*?)` body
def reOpt (r : RE) : RE := .rep r 0 (some 1) true             -- `r?`

/-- `\d{2}/\d{2}/\d{4}` (Maybank/CIMB date). -/
def dateRE : RE := RE.cat [dQ 2, chr '/', dQ 2, chr '/', dQ 4]

/-- `[\d,]+\.\d{2}` (a money amount). -/
def amtRE : RE := RE.cat [.rep (.cls (.digitOr [','])) 1 none true, chr '.', dQ 2]

/-! ## Calendar dates (`datetime.strptime` / `date.isoformat`) -/

structure YMD where
  y : Nat
  m : Nat
  d : Nat
deriving DecidableEq

def isLeap (y : Nat) : Bool := y % 4 = 0 && (y % 100 ≠ 0 || y % 400 = 0)

def daysInMonth (y m : Nat) : Nat :=
  if m = 2 then (if isLeap y then 29 else 28)
  else if m = 4 || m = 6 || m = 9 || m = 11 then 30
  else 31

def mkDate? (d m y : Nat) : Option YMD :=
  if 1 ≤ y && y ≤ 9999 && 1 ≤ m && m ≤ 12 && 1 ≤ d && d ≤ daysInMonth y m then
    some ⟨y, m, d⟩
  else none

/-- `datetime.strptime(s, '%d/%m/%Y')` (full-string parse, `ValueError` as
`none`): day and month of one or two digits, year of up to four digits,
validated against the calendar (`datetime.MINYEAR = 1`). -/
def strptimeDMY (s : Str) : Option YMD :=
  match s.splitOn '/' with
  | [d, m, y] =>
    if d ≠ [] && d.length ≤ 2 && d.all Char.isDigit &&
       m ≠ [] && m.length ≤ 2 && m.all Char.isDigit &&
       y ≠ [] && y.length ≤ 4 && y.all Char.isDigit then
      mkDate? (digitsToNat d) (digitsToNat m) (digitsToNat y)
    else none
  | _ => none

def monthAbbr? (s : Str) : Option Nat :=
  let u := (pyUpper s).asString
  if u = "JAN" then some 1 else if u = "FEB" then some 2
  else if u = "MAR" then some 3 else if u = "APR" then some 4
  else if u = "MAY" then some 5 else if u = "JUN" then some 6
  else if u = "JUL" then some 7 else if u = "AUG" then some 8
  else if u = "SEP" then some 9 else if u = "OCT" then some 10
  else if u = "NOV" then some 11 else if u = "DEC" then some 12
  else none

/-- `datetime.strptime(s, '%d %b %Y')` on strings of the shape the Alliance
parser feeds it (`\d{1,2}\s+[A-Z]{3}\s+\d{4}`). -/
def strptimeDBY (s : Str) : Option YMD :=
  let d := s.takeWhile Char.isDigit
  let r1 := (s.dropWhile Char.isDigit).dropWhile pySpace
  let mo := r1.takeWhile (fun c => !pySpace c)
  let r2 := (r1.dropWhile (fun c => !pySpace c)).dropWhile pySpace
  if d ≠ [] && d.length ≤ 2 && r2 ≠ [] && r2.length ≤ 4 && r2.all Char.isDigit then
    match monthAbbr? mo with
    | some m => mkDate? (digitsToNat d) m (digitsToNat r2)
    | none => none
  else none

def padZ (w : Nat) (n : Nat) : Str :=
  let ds := (toString n).data
  List.replicate (w - ds.length) '0' ++ ds

/-- `date.isoformat()`: `YYYY-MM-DD`. -/
def isoDate (x : YMD) : Str :=
  padZ 4 x.y ++ '-' :: (padZ 2 x.m ++ '-' :: padZ 2 x.d)

/-! ## Transaction records

One record type covers all four banks; fields a bank's dict does not carry
stay at their defaults (Python: key absent).  `is_parsing`/`has_amounts`
model the bookkeeping keys that finalization pops. -/

structure Txn where
  date : Str := []
  posting_date : Str := []
  description : Str := []
  cheque_no : Str := []
  amount : ℤ := 0
  balance : ℤ := 0
  transaction_type : Str := []
  bank : Str := []
  card_type : Str := []
  card_number : Str := []
  notes : Str := []
  statement_date : Str := []
  is_parsing : Bool := false
  has_amounts : Bool := false
deriving DecidableEq

/-! ## Bank detector (`detect_bank_type`) -/

def credit_card_indicators : List Str :=
  ["statement of credit card account".data,
   "penyata akaun kad kredit".data,
   "credit card statement".data,
   "card statement".data,
   "tax invoice".data,
   "invois cukai".data,
   "gst registration no".data]

def detect_bank_type (pdf_text : Str) : Str :=
  let text_lower := pyLower pdf_text
  if credit_card_indicators.any (fun i => strIn i text_lower) then
    "credit_card".data
  else if strIn "maybank".data text_lower || strIn "malayan banking".data text_lower ||
          strIn "maybank islamic".data text_lower then
    "maybank".data
  else if strIn "cimb".data text_lower || strIn "commerce international".data text_lower then
    "cimb".data
  else if strIn "alliance".data text_lower || strIn "alliance bank".data text_lower then
    "alliance".data
  else if (strIn "credit card".data text_lower && strIn "statement".data text_lower) ||
          (strIn "mastercard".data text_lower && strIn "statement".data text_lower) ||
          (strIn "visa".data text_lower && strIn "statement".data text_lower) then
    "credit_card".data
  else
    "maybank".data

/-! ## Maybank parser (`_parse_maybank`) -/

/-- `(\d{2}/\d{2}/\d{4}).*?([\d,]+\.\d{2}).*?([\d,]+\.\d{2})(.+)` -/
def maybankRE : RE :=
  RE.cat [.grp 1 dateRE, dotStarLazy, .grp 2 amtRE, dotStarLazy, .grp 3 amtRE,
          .grp 4 dotPlus]

/-- Per-page scanning state of `_parse_maybank`. -/
structure MState where
  inSec : Bool
  cont : Str
  out : List Txn
deriving DecidableEq

/-- One iteration of the Maybank line loop. -/
def maybankStep (st : MState) (raw : Str) : MState :=
  let line := pyStrip raw
  if strIn "URUSNIAGA AKAUN".data line || strIn "ACCOUNT TRANSACTIONS".data line then
    { st with inSec := true }
  else if strIn "ENDING BALANCE".data line || strIn "BAKI AKHIR".data line then
    { st with inSec := false }
  else if !st.inSec then st
  else
    let line := if st.cont ≠ [] then st.cont ++ ' ' :: line else line
    match reSearch maybankRE line with
    | some m =>
      match strptimeDMY (m.cap 1) with
      | none => { st with cont := [] }
      | some d =>
        match pyFloat? ((m.cap 2).filter (fun c => c ≠ ',')),
              pyFloat? ((m.cap 3).filter (fun c => c ≠ ',')) with
        | some amount, some balance =>
          let ttype := if amount > 0 then "debit".data else "credit".data
          { st with
            cont := []
            out := st.out ++
              [{ date := isoDate d
                 description := pyStrip (m.cap 4)
                 amount := amount
                 balance := balance
                 transaction_type := ttype
                 bank := "maybank".data }] }
        | _, _ => { st with cont := [] }
    | none =>
      if line ≠ [] && (reSearch dateRE line).isNone then { st with cont := line }
      else { st with cont := [] }

def parse_maybank_page (out : List Txn) (lines : List Str) : List Txn :=
  (lines.foldl maybankStep { inSec := false, cont := [], out := out }).out

def parse_maybank (pages : List (List Str)) : List Txn :=
  pages.foldl parse_maybank_page []

/-! ## CIMB parser (`_parse_cimb`) -/

/-- `^(\d{2}/\d{2}/\d{4})\s+(.+)$` (anchored, so `re.search` ≡ `re.match`). -/
def cimbStartRE : RE := RE.cat [.grp 1 dateRE, spaceP, .grp 2 dotPlus, .eos]

/-- `([\d,]+\.\d{2})\s+([\d,]+\.\d{2})\s*$` (two trailing amounts). -/
def cimbAmtRE : RE := RE.cat [.grp 1 amtRE, spaceP, .grp 2 amtRE, spaceS, .eos]

/-- `^(.+?)\s+([A-Z0-9]{8,})\s*$` (description + reference token). -/
def cimbRefRE : RE :=
  RE.cat [.grp 1 dotPlusLazy, spaceP, .grp 2 (.rep (.cls .upperAlnum) 8 none true),
          spaceS, .eos]

/-- `^\d{1,4}$`. -/
def cimbNumericRE : RE := RE.cat [.rep (.cls .digit) 1 (some 4) true, .eos]

/-- `^\s*$` (used with `re.match`). -/
def reBlank : RE := RE.cat [spaceS, .eos]

/-- `PRIVATE TRANSACTION` with `re.IGNORECASE` (prefix match on the lowered
line). -/
def rePrivateTx : RE := RE.ofStr "private transaction".data

/-- `^\s*[\d,]+\.\d{2}\s*$`. -/
def reJustAmt : RE := RE.cat [spaceS, amtRE, spaceS, .eos]

/-- `_parse_cimb_transaction_line`. -/
def parse_cimb_transaction_line (t : Txn) (line : Str) : Txn :=
  match reSearch cimbAmtRE line with
  | some m =>
    let t := { t with amount := pyFloatAmt (m.cap 1), balance := pyFloatAmt (m.cap 2) }
    let description_part := pyStrip (line.take m.start)
    match reMatch cimbRefRE description_part with
    | some c =>
      { t with
        description := pyStrip ((getCap 1 c).getD [])
        cheque_no := pyStrip ((getCap 2 c).getD [])
        is_parsing := false }
    | none => { t with description := description_part, is_parsing := false }
  | none => { t with description := pyStrip line }

/-- `_parse_cimb_continuation_line`. -/
def parse_cimb_continuation_line (t : Txn) (line : Str) : Txn :=
  match reSearch cimbAmtRE line with
  | some m =>
    let amount := if t.amount = 0 then pyFloatAmt (m.cap 1) else t.amount
    let balance := pyFloatAmt (m.cap 2)
    let dp := pyStrip (line.take m.start)
    let desc :=
      if dp ≠ [] then
        (if t.description ≠ [] then t.description ++ ' ' :: dp else dp)
      else t.description
    { t with amount := amount, balance := balance, description := desc, is_parsing := false }
  | none =>
    if (reMatch cimbNumericRE (pyStrip line)).isSome && t.cheque_no ≠ [] then
      { t with cheque_no := t.cheque_no ++ pyStrip line }
    else
      let lline := pyLower line
      let should_skip := (reMatch reBlank lline).isSome ||
        (reMatch rePrivateTx lline).isSome || (reMatch reJustAmt lline).isSome
      if !should_skip && pyStrip line ≠ [] then
        { t with description :=
            if t.description ≠ [] then t.description ++ ' ' :: pyStrip line
            else pyStrip line }
      else t

/-- Per-record cleanup of `_finalize_cimb_transactions` (pop `is_parsing`,
strip description and reference). -/
def cimbClean (t : Txn) : Txn :=
  { t with
    is_parsing := false
    description := pyStrip t.description
    cheque_no := pyStrip t.cheque_no }

/-- Loop body of the debit/credit inference of
`_finalize_cimb_transactions` for records after the first: compare against
the previous record's balance (which the loop never mutates). -/
def cimbSignOne (prev : ℤ) (t : Txn) : Txn :=
  if t.balance > prev then
    { t with transaction_type := "credit".data, amount := pyAbs t.amount }
  else
    { t with transaction_type := "debit".data, amount := -pyAbs t.amount }

def cimbSignRest (prev : ℤ) : List Txn → List Txn
  | [] => []
  | t :: rest => cimbSignOne prev t :: cimbSignRest (cimbSignOne prev t).balance rest

/-- Loop body for the first record, judged by `balance > balance - amount`
(the amount is left untouched in the credit branch). -/
def cimbSignFirst (t : Txn) : Txn :=
  if t.balance > t.balance - t.amount then
    { t with transaction_type := "credit".data }
  else
    { t with transaction_type := "debit".data, amount := -pyAbs t.amount }

/-- The debit/credit inference loop of `_finalize_cimb_transactions`. -/
def cimbSign : List Txn → List Txn
  | [] => []
  | t :: rest => cimbSignFirst t :: cimbSignRest (cimbSignFirst t).balance rest

/-- `_finalize_cimb_transactions`: drop in-progress records, clean up, then
infer signs from the balance chain. -/
def finalize_cimb_transactions (ts : List Txn) : List Txn :=
  cimbSign ((ts.filter (fun t => !t.is_parsing)).map cimbClean)

/-- Scanning state of `_parse_cimb`; `inTable` and `cur` survive page
boundaries (they are declared outside the page loop). -/
structure CState where
  inTable : Bool
  cur : Option Txn
  out : List Txn
deriving DecidableEq

/-- One iteration of the CIMB line loop; the `Bool` is the `break` flag set
by a closing-balance line (it ends the current page's line loop only). -/
def cimbStep (p : CState × Bool) (raw : Str) : CState × Bool :=
  if p.2 then p
  else
    let st := p.1
    let line := pyStrip raw
    if line = [] then p
    else if strIn "Date Description Cheque / Ref No Withdrawal Deposits Tax Balance".data line then
      ({ st with inTable := true }, false)
    else if strIn "Tarikh Diskripsi No Cek / Rujukan Pengeluaran Deposit Cukai Baki".data line then p
    else if line = "(RM) (RM) (RM) (RM)".data then p
    else if strIn "OPENING BALANCE".data line then p
    else if strIn "CLOSING BALANCE".data line || strIn "BAKI PENUTUP".data line then
      (⟨st.inTable, none, st.out ++ st.cur.toList⟩, true)
    else if !st.inTable then p
    else
      match reMatch cimbStartRE line with
      | some c =>
        let out1 := st.out ++ st.cur.toList
        match strptimeDMY ((getCap 1 c).getD []) with
        | none =>
          -- date failed: `continue`; Python keeps the stale reference in
          -- `current_transaction`, modelled as keeping the old value
          (⟨st.inTable, st.cur, out1⟩, false)
        | some d =>
          let t0 : Txn :=
            { date := isoDate d
              transaction_type := "debit".data
              bank := "cimb".data
              is_parsing := true }
          let t1 := parse_cimb_transaction_line t0 (pyStrip ((getCap 2 c).getD []))
          (⟨st.inTable, some t1, out1⟩, false)
      | none =>
        match st.cur with
        | some t =>
          (⟨st.inTable, some (parse_cimb_continuation_line t line), st.out⟩, false)
        | none => p

/-- One CIMB page: run the line loop, then flush any remaining transaction. -/
def cimb_page (st : CState) (lines : List Str) : CState :=
  let r := (lines.foldl cimbStep (st, false)).1
  { r with cur := none, out := r.out ++ r.cur.toList }

def parse_cimb (pages : List (List Str)) : List Txn :=
  finalize_cimb_transactions ((pages.foldl cimb_page ⟨false, none, []⟩).out)

/-! ## Alliance parser (`_parse_alliance`) -/

/-- `^(\d{1,2}/\d{1,2}/\d{2,4})\s+(.+)$`. -/
def allianceDate1RE : RE :=
  RE.cat [.grp 1 (RE.cat [d12, chr '/', d12, chr '/', .rep (.cls .digit) 2 (some 4) true]),
          spaceP, .grp 2 dotPlus, .eos]

/-- `^(\d{6,8})\s+(.+)$`. -/
def allianceDate2RE : RE :=
  RE.cat [.grp 1 (.rep (.cls .digit) 6 (some 8) true), spaceP, .grp 2 dotPlus, .eos]

/-- `^(\d{1,2}\s+[A-Z]{3}\s+\d{4})\s+(.+)$`. -/
def allianceDate3RE : RE :=
  RE.cat [.grp 1 (RE.cat [d12, spaceP, .rep (.cls .upperAlpha) 3 (some 3) true, spaceP, dQ 4]),
          spaceP, .grp 2 dotPlus, .eos]

def crdrRE : RE := .alt (RE.ofStr "CR".data) (RE.ofStr "DR".data)

/-- `(.+?)\s+([\d,]+\.\d{2})\s+([\d,]+\.\d{2})\s+(CR|DR)?\s*$`. -/
def alliancePat1 : RE :=
  RE.cat [.grp 1 dotPlusLazy, spaceP, .grp 2 amtRE, spaceP, .grp 3 amtRE, spaceP,
          reOpt (.grp 4 crdrRE), spaceS, .eos]

/-- `([\d,]+\.\d{2})\s+([\d,]+\.\d{2})\s+([\d,]+\.\d{2})\s*$`. -/
def allianceTripleRE : RE :=
  RE.cat [.grp 1 amtRE, spaceP, .grp 2 amtRE, spaceP, .grp 3 amtRE, spaceS, .eos]

/-- `([\d,]+\.\d{2})\s+([\d,]+\.\d{2})\s*$`. -/
def alliancePairRE : RE := RE.cat [.grp 1 amtRE, spaceP, .grp 2 amtRE, spaceS, .eos]

/-- `([\d,]+\.\d{2})\s*$`. -/
def allianceSingleRE : RE := RE.cat [.grp 1 amtRE, spaceS, .eos]

/-- Continuation pattern 1: `([\d,]+\.\d{2})\s+([\d,]+\.\d{2})\s+(CR|DR)?\s*$`. -/
def allianceContP1 : RE :=
  RE.cat [.grp 1 amtRE, spaceP, .grp 2 amtRE, spaceP, reOpt (.grp 3 crdrRE), spaceS, .eos]

/-- Continuation pattern 4: `([\d,]+\.\d{2})\s+(CR|DR)?\s*$`. -/
def allianceContP4 : RE :=
  RE.cat [.grp 1 amtRE, spaceP, reOpt (.grp 2 crdrRE), spaceS, .eos]

/-- Alliance skip patterns (matched with `re.IGNORECASE`, hence on the
lowered line): `^\s*CR\s*$`, `^\s*DR\s*$`, `^\s*\(\s*RM\s*\)\s*$`,
`^\s*RM\s*$`, page footers. -/
def reJustCR : RE := RE.cat [spaceS, RE.ofStr "cr".data, spaceS, .eos]

def reJustDR : RE := RE.cat [spaceS, RE.ofStr "dr".data, spaceS, .eos]

def reJustParenRM : RE :=
  RE.cat [spaceS, chr '(', spaceS, RE.ofStr "rm".data, spaceS, chr ')', spaceS, .eos]

def reJustRM : RE := RE.cat [spaceS, RE.ofStr "rm".data, spaceS, .eos]

def rePageNum : RE :=
  RE.cat [RE.ofStr "page ".data, digitsP, RE.ofStr " of ".data, digitsP, .eos]

def reHalaman : RE :=
  RE.cat [RE.ofStr "halaman ".data, digitsP, RE.ofStr " dari ".data, digitsP, .eos]

/-- `_parse_alliance_transaction_line`: four amount patterns tried in order;
only the first keeps the record open (with `has_amounts`). -/
def parse_alliance_transaction_line (t : Txn) (line : Str) : Txn :=
  match reSearch alliancePat1 line with
  | some m =>
    let description := pyStrip (m.cap 1)
    let amount := pyFloatAmt (m.cap 2)
    let balance := pyFloatAmt (m.cap 3)
    let cr_dr := (m.cap? 4).getD []
    let t :=
      if strIn "CR".data cr_dr || strIn "CR".data (pyUpper line) then
        { t with amount := amount, transaction_type := "credit".data }
      else
        { t with amount := -amount, transaction_type := "debit".data }
    { t with
      balance := balance
      description := description
      is_parsing := true
      has_amounts := true }
  | none =>
  match reSearch allianceTripleRE line with
  | some m =>
    let withdrawal := pyFloatAmt (m.cap 1)
    let deposit := pyFloatAmt (m.cap 2)
    let balance := pyFloatAmt (m.cap 3)
    let t :=
      if withdrawal > 0 then
        { t with amount := -withdrawal, transaction_type := "debit".data }
      else if deposit > 0 then
        { t with amount := deposit, transaction_type := "credit".data }
      else t
    { t with
      balance := balance
      description := pyStrip (line.take m.start)
      is_parsing := false }
  | none =>
  match reSearch alliancePairRE line with
  | some m =>
    let amount := pyFloatAmt (m.cap 1)
    let balance := pyFloatAmt (m.cap 2)
    let t :=
      if strIn "CR".data (pyUpper line) then
        { t with amount := amount, transaction_type := "credit".data }
      else
        { t with amount := -amount, transaction_type := "debit".data }
    { t with
      balance := balance
      description := pyStrip (line.take m.start)
      is_parsing := false }
  | none =>
  match reSearch allianceSingleRE line with
  | some m =>
    let amount := pyFloatAmt (m.cap 1)
    let t :=
      if strIn "CR".data (pyUpper line) then
        { t with amount := amount, transaction_type := "credit".data }
      else
        { t with amount := -amount, transaction_type := "debit".data }
    { t with description := pyStrip (line.take m.start), is_parsing := false }
  | none => { t with description := pyStrip line }

/-- `_parse_alliance_continuation_line`. -/
def parse_alliance_continuation_line (t : Txn) (line : Str) : Txn :=
  if t.has_amounts then
    { t with description :=
        if t.description ≠ [] then t.description ++ ' ' :: pyStrip line
        else pyStrip line }
  else
  match reSearch allianceContP1 line with
  | some m =>
    let amount := pyFloatAmt (m.cap 1)
    let balance := pyFloatAmt (m.cap 2)
    let cr_dr := (m.cap? 3).getD []
    let t :=
      if strIn "CR".data cr_dr || strIn "CR".data (pyUpper line) then
        { t with amount := amount, transaction_type := "credit".data }
      else
        { t with amount := -amount, transaction_type := "debit".data }
    let t := { t with balance := balance }
    let dp := pyStrip (line.take m.start)
    let t :=
      if dp ≠ [] then
        { t with description :=
            if t.description ≠ [] then t.description ++ ' ' :: dp else dp }
      else t
    { t with is_parsing := false }
  | none =>
  match reSearch allianceTripleRE line with
  | some m =>
    let withdrawal := pyFloatAmt (m.cap 1)
    let deposit := pyFloatAmt (m.cap 2)
    let balance := pyFloatAmt (m.cap 3)
    let t :=
      if withdrawal > 0 then
        { t with amount := -withdrawal, transaction_type := "debit".data }
      else if deposit > 0 then
        { t with amount := deposit, transaction_type := "credit".data }
      else t
    let t := { t with balance := balance }
    let dp := pyStrip (line.take m.start)
    let t :=
      if dp ≠ [] then
        { t with description :=
            if t.description ≠ [] then t.description ++ ' ' :: dp else dp }
      else t
    { t with is_parsing := false }
  | none =>
  match reSearch alliancePairRE line with
  | some m =>
    let amount := pyFloatAmt (m.cap 1)
    let balance := pyFloatAmt (m.cap 2)
    let t :=
      if strIn "CR".data (pyUpper line) then
        { t with amount := amount, transaction_type := "credit".data }
      else
        { t with amount := -amount, transaction_type := "debit".data }
    let t := { t with balance := balance }
    let dp := pyStrip (line.take m.start)
    let t :=
      if dp ≠ [] then
        { t with description :=
            if t.description ≠ [] then t.description ++ ' ' :: dp else dp }
      else t
    { t with is_parsing := false }
  | none =>
  match reSearch allianceContP4 line with
  | some m =>
    let amount := pyFloatAmt (m.cap 1)
    let cr_dr := (m.cap? 2).getD []
    let t :=
      if strIn "CR".data cr_dr || strIn "CR".data (pyUpper line) then
        { t with amount := amount, transaction_type := "credit".data }
      else
        { t with amount := -amount, transaction_type := "debit".data }
    let dp := pyStrip (line.take m.start)
    let t :=
      if dp ≠ [] then
        { t with description :=
            if t.description ≠ [] then t.description ++ ' ' :: dp else dp }
      else t
    { t with is_parsing := false }
  | none =>
    let lline := pyLower line
    let should_skip := (reMatch reBlank lline).isSome ||
      (reMatch reJustAmt lline).isSome || (reMatch reJustCR lline).isSome ||
      (reMatch reJustDR lline).isSome || (reMatch reJustParenRM lline).isSome ||
      (reMatch reJustRM lline).isSome || (reMatch rePageNum lline).isSome ||
      (reMatch reHalaman lline).isSome
    if !should_skip && pyStrip line ≠ [] then
      { t with description :=
          if t.description ≠ [] then t.description ++ ' ' :: pyStrip line
          else pyStrip line }
    else t

/-- Cleanup part of the `_finalize_alliance_transactions` body: pop the
bookkeeping keys and strip the description. -/
def allianceClean (t : Txn) : Txn :=
  { t with
    is_parsing := false
    has_amounts := false
    description := pyStrip t.description }

/-- Per-record body of `_finalize_alliance_transactions`: clean up, then
force the amount's sign to agree with the transaction type. -/
def allianceFinalizeOne (t : Txn) : Txn :=
  if (allianceClean t).transaction_type = "debit".data ∧ (allianceClean t).amount > 0 then
    { allianceClean t with amount := -(allianceClean t).amount }
  else if (allianceClean t).transaction_type = "credit".data ∧
          (allianceClean t).amount < 0 then
    { allianceClean t with amount := pyAbs (allianceClean t).amount }
  else allianceClean t

/-- `_finalize_alliance_transactions`: keep completed or `has_amounts`
records, then clean each record up. -/
def finalize_alliance_transactions (ts : List Txn) : List Txn :=
  (ts.filter (fun t => !t.is_parsing || t.has_amounts)).map allianceFinalizeOne

def alliance_transaction_headers : List Str :=
  ["Date Transaction Detail".data,
   "Date Transaction Detai".data,
   "Tarikh Butiran Transaksi".data,
   "Date Description".data,
   "Tarikh Keterangan".data,
   "Date Particulars".data,
   "Transaction Details".data,
   "TRANSACTION DETAILS".data,
   "Date Amount Balance".data,
   "Tarikh Jumlah Baki".data]

inductive AFmt where
  | slash
  | numeric
  | month
deriving DecidableEq

/-- The three Alliance date-start patterns, tried in order (all anchored
`^...$`, so `re.search` ≡ `re.match`). -/
def allianceDateMatch (line : Str) : Option (AFmt × Str × Str) :=
  match reMatch allianceDate1RE line with
  | some c => some (.slash, (getCap 1 c).getD [], (getCap 2 c).getD [])
  | none =>
  match reMatch allianceDate2RE line with
  | some c => some (.numeric, (getCap 1 c).getD [], (getCap 2 c).getD [])
  | none =>
  match reMatch allianceDate3RE line with
  | some c => some (.month, (getCap 1 c).getD [], (getCap 2 c).getD [])
  | none => none

/-- Date coercion for a matched Alliance start line (two-digit years `00-30`
map to `20xx`, `31-99` to `19xx`; 6-digit numeric dates are `DDMMYY`, longer
ones are split `[0:2]/[2:4]/[4:8]`). -/
def allianceDate? (fmt : AFmt) (date_str : Str) : Option YMD :=
  match fmt with
  | .slash =>
    match date_str.splitOn '/' with
    | [p1, p2, p3] =>
      if p3.length = 2 then
        let yr := digitsToNat p3
        let yr4 := if yr ≤ 30 then 2000 + yr else 1900 + yr
        strptimeDMY (p1 ++ '/' :: p2 ++ '/' :: (toString yr4).data)
      else strptimeDMY date_str
    | _ => strptimeDMY date_str
  | .numeric =>
    if date_str.length = 6 then
      let yr := digitsToNat ((date_str.drop 4).take 2)
      let yr4 := if yr ≤ 30 then 2000 + yr else 1900 + yr
      strptimeDMY (date_str.take 2 ++ '/' :: (date_str.drop 2).take 2 ++ '/' :: (toString yr4).data)
    else
      strptimeDMY (date_str.take 2 ++ '/' :: (date_str.drop 2).take 2 ++ '/' :: (date_str.drop 4).take 4)
  | .month => strptimeDBY date_str

/-- Per-page scanning state of `_parse_alliance` (`in_transaction_section`
and `current_transaction` reset on every page). -/
structure AState where
  inSec : Bool
  cur : Option Txn
  out : List Txn
deriving DecidableEq

/-- One iteration of the Alliance line loop. -/
def allianceStep (st : AState) (raw : Str) : AState :=
  let line := pyStrip raw
  if line = [] then st
  else
    let header_found := alliance_transaction_headers.any (fun h => strIn h line) ||
      (strIn "Date".data line &&
        (strIn "Transaction".data line || strIn "Amount".data line ||
         strIn "Balance".data line || strIn "Description".data line))
    if header_found then { st with inSec := true }
    else if (strIn "Tarikh".data line && strIn "Butiran".data line) ||
            pyStrip line = "(RM)".data || pyStrip line = "RM".data then st
    else if strIn "ENDING BALANCE".data line || strIn "BAKI AKHIR".data line ||
            strIn "CLOSING BALANCE".data line || strIn "BAKI PENUTUP".data line ||
            strIn "Total Charges".data line then
      { inSec := false, cur := none, out := st.out ++ st.cur.toList }
    else if !st.inSec then st
    else
      match allianceDateMatch line with
      | some (fmt, date_str, rest0) =>
        let out1 :=
          match st.cur with
          | some t => if t.amount ≠ 0 || t.description ≠ [] then st.out ++ [t] else st.out
          | none => st.out
        match allianceDate? fmt date_str with
        | none =>
          -- `ValueError` → `continue`; Python keeps the stale reference
          { st with out := out1 }
        | some d =>
          let t0 : Txn :=
            { date := isoDate d
              transaction_type := "debit".data
              bank := "alliance".data
              is_parsing := true }
          let rest := pyStrip rest0
          let cur' :=
            if rest ≠ [] then
              (if (reSearch amtRE rest).isSome then parse_alliance_transaction_line t0 rest
               else { t0 with description := rest })
            else t0
          { inSec := st.inSec, cur := some cur', out := out1 }
      | none =>
        match st.cur with
        | some t =>
          if t.is_parsing then
            { st with cur := some (parse_alliance_continuation_line t line) }
          else st
        | none => st

/-- One Alliance page: fresh section/record state, flush at page end. -/
def alliance_page (out : List Txn) (lines : List Str) : List Txn :=
  let st := lines.foldl allianceStep { inSec := false, cur := none, out := out }
  st.out ++ st.cur.toList

def parse_alliance (pages : List (List Str)) : List Txn :=
  finalize_alliance_transactions (pages.foldl alliance_page [])

/-! ## Credit-card parser (`_parse_credit_card`) -/

/-- Python `str.replace(needle, repl)`: every non-overlapping occurrence,
left to right (call sites never pass an empty needle).  Structurally
recursive on a fuel that the wrapper sets to more than the haystack length,
which is always enough because each step consumes at least one character. -/
def pyReplaceGo : Nat → Str → Str → Str → Str
  | 0, hay, _, _ => hay
  | f + 1, hay, needle, repl =>
    match hay with
    | [] => []
    | h :: tl =>
      if needle ≠ [] && isPrefixB needle (h :: tl) then
        repl ++ pyReplaceGo f ((h :: tl).drop needle.length) needle repl
      else h :: pyReplaceGo f tl needle repl

def pyReplace (hay needle repl : Str) : Str :=
  pyReplaceGo (hay.length + 1) hay needle repl

def joinLines (ls : List Str) : Str := List.intercalate ['\n'] ls

/-- `[\d,.]+\.\d{2}` (the credit-card amount token). -/
def ccAmtRE : RE :=
  RE.cat [.rep (.cls (.digitOr [',', '.'])) 1 none true, chr '.', dQ 2]

/-- `^(\d{2}/\d{2})\s+(\d{2}/\d{2})\s+(.*?)(?:\s+([\d,.]+\.\d{2})\s*(CR)?)?$`. -/
def ccTxnRE : RE :=
  RE.cat [.grp 1 (RE.cat [dQ 2, chr '/', dQ 2]), spaceP,
          .grp 2 (RE.cat [dQ 2, chr '/', dQ 2]), spaceP,
          .grp 3 dotStarLazy,
          reOpt (RE.cat [spaceP, .grp 4 ccAmtRE, spaceS, reOpt (.grp 5 (RE.ofStr "CR".data))]),
          .eos]

/-- `^([\d,.]+\.\d{2})\s*(CR)?$`. -/
def ccAmountOnlyRE : RE :=
  RE.cat [.grp 1 ccAmtRE, spaceS, reOpt (.grp 2 (RE.ofStr "CR".data)), .eos]

/-- `\d{4}\s\d{4}\s\d{4}\s\d{4}` (a card/account number). -/
def ccPanRE : RE :=
  RE.cat [dQ 4, .cls .space, dQ 4, .cls .space, dQ 4, .cls .space, dQ 4]

def upSpStar : RE := .rep (.cls .upperSpace) 0 none true

/-- `([A-Z\s]*MASTERCARD[A-Z\s]*)\s*:\s*(\d{4}\s\d{4}\s\d{4}\s\d{4})`. -/
def ccCard1RE : RE :=
  RE.cat [.grp 1 (RE.cat [upSpStar, RE.ofStr "MASTERCARD".data, upSpStar]),
          spaceS, chr ':', spaceS, .grp 2 ccPanRE]

/-- `Account Nu[mber]*[:/]\s*(\d{4}\s\d{4}\s\d{4}\s\d{4})` (one group). -/
def ccCard2RE : RE :=
  RE.cat [RE.ofStr "Account Nu".data,
          .rep (.cls (.oneOf ['m', 'b', 'e', 'r'])) 0 none true,
          .cls (.oneOf [':', '/']), spaceS, .grp 1 ccPanRE]

/-- `([A-Z\s]*CARD[A-Z\s]*)\s*[:-]\s*(\d{4}\s\d{4}\s\d{4}\s\d{4})`. -/
def ccCard3RE : RE :=
  RE.cat [.grp 1 (RE.cat [upSpStar, RE.ofStr "CARD".data, upSpStar]),
          spaceS, .cls (.oneOf [':', '-']), spaceS, .grp 2 ccPanRE]

/-- `Statement Date/\s+Tarikh Penyata\s+(\d{2} [A-Z]{3} \d{2})`. -/
def ccStatementDateRE : RE :=
  RE.cat [RE.ofStr "Statement Date/".data, spaceP, RE.ofStr "Tarikh Penyata".data, spaceP,
          .grp 1 (RE.cat [dQ 2, chr ' ', .rep (.cls .upperAlpha) 3 (some 3) true, chr ' ', dQ 2])]

/-- `(\d{4})` (year from the filename stem). -/
def ccYearRE : RE := .grp 1 (dQ 4)

/-- `^\d{2}/\d{2}` (used with `re.match`). -/
def ccDateStartRE : RE := RE.cat [dQ 2, chr '/', dQ 2]

/-- `^\d{2}/\d{2}\s+\d{2}/\d{2}` (used with `re.match`). -/
def ccTwoDatesRE : RE :=
  RE.cat [dQ 2, chr '/', dQ 2, spaceP, dQ 2, chr '/', dQ 2]

/-- `TRANSACTED AMOUNT\s+USD\s+(\d+\.\d{2})`. -/
def ccUsdRE : RE :=
  RE.cat [RE.ofStr "TRANSACTED AMOUNT".data, spaceP, RE.ofStr "USD".data, spaceP,
          .grp 1 (RE.cat [digitsP, chr '.', dQ 2])]

/-- The detected card context (`current_card` dict). -/
structure Card where
  type : Str
  number : Str
  masked : Str
deriving DecidableEq

/-- Try the three card patterns, in order, on one lookahead line. -/
def tryCardPatterns (check_line : Str) : Option Card :=
  match reSearch ccCard1RE check_line with
  | some m =>
    some ⟨if m.cap 1 ≠ [] then pyStrip (m.cap 1) else "MAYBANK CARD".data, m.cap 2, m.cap 2⟩
  | none =>
  match reSearch ccCard2RE check_line with
  | some m => some ⟨"MAYBANK CARD".data, m.cap 1, m.cap 1⟩
  | none =>
  match reSearch ccCard3RE check_line with
  | some m =>
    some ⟨if m.cap 1 ≠ [] then pyStrip (m.cap 1) else "MAYBANK CARD".data, m.cap 2, m.cap 2⟩
  | none => none

/-- The card-detection lookahead: scan the next (up to four) lines; the
outer loop breaks as soon as `current_card` is set — including when it was
already set before the scan. -/
def scanCard : List Str → Option Card → Option Card
  | [], cur => cur
  | l :: ls, cur =>
    let cur' :=
      match tryCardPatterns (pyStrip l) with
      | some c => some c
      | none => cur
    if cur'.isSome then cur' else scanCard ls cur'

/-- The missing-amount lookahead over the next (up to two) lines: a bare
amount token ends the scan; other non-date, non-header lines are appended to
the description. -/
def ccAmountScan : List Str → Str → Option Str × Str
  | [], desc => (none, desc)
  | l :: ls, desc =>
    let next_line := pyStrip l
    match reMatch ccAmountOnlyRE next_line with
    | some c =>
      let a := (getCap 1 c).getD []
      (some (if (getCap 2 c).isSome then a ++ ' ' :: "CR".data else a), desc)
    | none =>
      if (reMatch ccDateStartRE next_line).isNone &&
         !(["TOTAL CREDIT".data, "JUMLAH KREDIT".data, "TOTAL DEBIT".data,
            "SUB TOTAL".data].any (fun h => strIn h next_line)) then
        ccAmountScan ls (desc ++ ' ' :: next_line)
      else ccAmountScan ls desc

/-- The notes lookahead over the next (up to three) lines. -/
def ccNotesScan : List Str → List Str → List Str
  | [], notes => notes
  | l :: ls, notes =>
    let note_line := pyStrip l
    if note_line = [] then ccNotesScan ls notes
    else if (reMatch ccTwoDatesRE note_line).isSome then notes
    else if ["Posting Date".data, "TOTAL CREDIT".data, "TOTAL DEBIT".data,
             "Page/Halaman".data, "SUB TOTAL".data, "Tarikh".data].any
              (fun h => strIn h note_line) then notes
    else if (["TRANSACTED AMOUNT".data, "USD".data, "EUR".data, "SGD".data,
              "EXCHANGE RATE".data].any (fun k => strIn k (pyUpper note_line))) ||
            (note_line.length > 10 &&
             !(["MUHAMMAD".data, "MASTERCARD".data, "YOUR COMBINED".data].any
                (fun sk => strIn sk note_line))) then
      ccNotesScan ls (notes ++ [note_line])
    else ccNotesScan ls notes

instance {ε α : Type} [DecidableEq ε] [DecidableEq α] : DecidableEq (Except ε α) :=
  fun a b =>
    match a, b with
    | .ok x, .ok y =>
      if h : x = y then .isTrue (congrArg Except.ok h)
      else .isFalse (fun hh => h (Except.ok.inj hh))
    | .error x, .error y =>
      if h : x = y then .isTrue (congrArg Except.error h)
      else .isFalse (fun hh => h (Except.error.inj hh))
    | .ok _, .error _ => .isFalse (fun hh => Except.noConfusion hh)
    | .error _, .ok _ => .isFalse (fun hh => Except.noConfusion hh)

/-- Scanning state of `_parse_credit_card`; the section flag and card
context survive page boundaries. -/
structure CCSt where
  inSec : Bool
  card : Option Card
  out : List Txn
deriving DecidableEq

/-- The card-detection part of one credit-card loop iteration: a cardholder
name marker (with at least one following line) triggers the lookahead scan. -/
def ccCardUpdate (line : Str) (rest : List Str) (card : Option Card) : Option Card :=
  if (strIn "MUHAMMAD MAHERILHAM".data line ||
      strIn "ENCIK MUHAMMAD MAHERILHAM".data line) && rest ≠ [] then
    scanCard (rest.take 4) card
  else card

/-- One iteration of the credit-card line loop; `rest` is the remainder of
the page (the loop looks ahead through `lines[line_idx+1:]`).  The only
uncaught exception is `float(...)` on a malformed amount token. -/
def ccStep (year : Str) (stmtDate : Str) (raw : Str) (rest : List Str) (st : CCSt) :
    Except Str CCSt :=
  let line := pyStrip raw
  if line = [] then .ok st
  else
    let st := { st with card := ccCardUpdate line rest st.card }
    if strIn "Posting Date /".data line && strIn "Transaction Date /".data line &&
       strIn "Transaction Description /".data line then
      .ok { st with inSec := true }
    else if !st.inSec || st.card.isNone then .ok st
    else if strIn "TOTAL CREDIT THIS MONTH".data line || strIn "SUB TOTAL/JUMLAH".data line then
      .ok { st with inSec := false }
    else if ["MUHAMMAD MAHERILHAM".data, "MASTERCARD IKHWAN".data,
             "YOUR COMBINED FACILITY".data, "TAX INVOICE NO".data, "GST".data,
             "Page/Halaman".data, "STATEMENT OF CREDIT".data].any
              (fun h => strIn h line) then
      .ok st
    else
      match reMatch ccTxnRE line with
      | none => .ok st
      | some c =>
        let posting_date := (getCap 1 c).getD []
        let transaction_date := (getCap 2 c).getD []
        let description0 := pyStrip ((getCap 3 c).getD [])
        let amt0 : Option Str :=
          match getCap 4 c with
          | some a => some (if (getCap 5 c).isSome then a ++ ' ' :: "CR".data else a)
          | none => none
        let scanned :=
          if amt0.isNone && rest ≠ [] then ccAmountScan (rest.take 2) description0
          else (amt0, description0)
        let description2 := pyStrip scanned.2
        let description3 :=
          match reSearch ccUsdRE description2 with
          | some m =>
            let whole := (description2.drop m.start).take m.len
            pyReplace description2 whole (('(' :: "USD ".data) ++ m.cap 1 ++ [')'])
          | none => description2
        match scanned.1 with
        | none => .ok st
        | some amount_str =>
          match pyFloat? ((pyReplace amount_str "CR".data []).filter (fun ch => ch ≠ ',')) with
          | none => .error "ValueError".data
          | some araw =>
            let hasCR := strIn "CR".data amount_str
            let amount : ℤ := if hasCR then araw else -araw
            let ttype := if hasCR then "credit".data else "debit".data
            let dates :=
              if posting_date.length = 5 then
                match strptimeDMY (posting_date ++ '/' :: year),
                      strptimeDMY (transaction_date ++ '/' :: year) with
                | some p, some t => (isoDate p, isoDate t)
                | _, _ => (posting_date, transaction_date)
              else (posting_date, transaction_date)
            let notes := ccNotesScan (rest.take 3) []
            let txn : Txn :=
              { date := dates.2
                posting_date := dates.1
                description := description3
                amount := pyAbs amount
                transaction_type := ttype
                bank := "credit_card".data
                card_type := (st.card.map Card.type).getD []
                card_number := (st.card.map Card.masked).getD []
                notes := List.intercalate ("; ".data) notes
                statement_date := stmtDate }
            .ok { st with out := st.out ++ [txn] }

/-- The credit-card line loop over one page. -/
def ccGo (year : Str) (stmtDate : Str) : List Str → CCSt → Except Str CCSt
  | [], st => .ok st
  | l :: rest, st =>
    match ccStep year stmtDate l rest st with
    | .ok st' => ccGo year stmtDate rest st'
    | .error e => .error e

/-- The page loop (pages whose extracted text is empty are skipped). -/
def ccGoPages (year : Str) (stmtDate : Str) : List (List Str) → CCSt → Except Str CCSt
  | [], st => .ok st
  | p :: ps, st =>
    if joinLines p = [] then ccGoPages year stmtDate ps st
    else
      match ccGo year stmtDate p st with
      | .ok st' => ccGoPages year stmtDate ps st'
      | .error e => .error e

/-- `_parse_credit_card`: `stem` is `Path(pdf_path).stem`, `nowYear` is
`datetime.now().year` (used only when the filename has no 4-digit run).
An empty document raises (`pdf.pages[0]`). -/
def parse_credit_card (stem : Str) (nowYear : Nat) (pages : List (List Str)) :
    Except Str (List Txn) :=
  let year :=
    match reSearch ccYearRE stem with
    | some m => m.cap 1
    | none => (toString nowYear).data
  match pages with
  | [] => .error "IndexError".data
  | p0 :: _ =>
    let first_page_text := joinLines p0
    let stmtDate :=
      match reSearch ccStatementDateRE first_page_text with
      | some m => m.cap 1
      | none => []
    match ccGoPages year stmtDate pages ⟨false, none, []⟩ with
    | .ok st => .ok st.out
    | .error e => .error e

/-! ## Summary generator (`_generate_summary`) -/

def creditTxns (ts : List Txn) : List Txn :=
  ts.filter (fun t => decide (t.transaction_type = "credit".data))

def debitTxns (ts : List Txn) : List Txn :=
  ts.filter (fun t => decide (t.transaction_type = "debit".data))

/-- `credit_transactions['amount'].sum()` (0 on the empty frame). -/
def total_credits_of (ts : List Txn) : ℤ := ((creditTxns ts).map Txn.amount).sum

def total_debits_of (ts : List Txn) : ℤ := ((debitTxns ts).map Txn.amount).sum

/-- Lexicographic comparison of date strings; for the ISO dates the parsers
emit this agrees with the chronological order `pd.to_datetime` uses. -/
def strLeB : Str → Str → Bool
  | [], _ => true
  | _ :: _, [] => false
  | a :: as, b :: bs => if a = b then strLeB as bs else decide (a < b)

def minDateOf (ds : List Str) : Str :=
  match ds with
  | [] => []
  | d :: rest => rest.foldl (fun acc x => if strLeB x acc then x else acc) d

def maxDateOf (ds : List Str) : Str :=
  match ds with
  | [] => []
  | d :: rest => rest.foldl (fun acc x => if strLeB acc x then x else acc) d

structure Summary where
  total_transactions : Nat
  credit_count : Nat
  debit_count : Nat
  total_credits : ℤ
  total_debits : ℤ
  net_amount : ℤ
  date_range : Str × Str
deriving DecidableEq

/-- `_generate_summary`; the empty dict `{}` for an empty list is `none`.
`date_range` keeps the date strings themselves (pandas re-serialises them
through `to_datetime`, which does not change their order). -/
def generate_summary (transactions : List Txn) : Option Summary :=
  if transactions = [] then none
  else
    let tc := total_credits_of transactions
    let td := total_debits_of transactions
    some
      { total_transactions := transactions.length
        credit_count := (creditTxns transactions).length
        debit_count := (debitTxns transactions).length
        total_credits := pyRound2 tc
        total_debits := pyRound2 td
        net_amount := pyRound2 (tc - td)
        date_range := (minDateOf (transactions.map Txn.date),
                       maxDateOf (transactions.map Txn.date)) }

/-! ## CSV generator (`_generate_csv`) -/

/-- Minimal CSV quoting (pandas `to_csv` default): quote a field containing
a delimiter, quote, or line break; double embedded quotes. -/
def csvQuote (s : Str) : Str :=
  if s.any (fun c => c = ',' || c = '"' || c = '\n' || c = '\r') then
    '"' :: s.flatMap (fun c => if c = '"' then ['"', '"'] else [c]) ++ ['"']
  else s

/-- Decimal rendering of an amount held in cents; mirrors `str(float)` on
two-decimal values: at least one fractional digit, no trailing zero beyond
it. -/
def fmtCents (q : ℤ) : Str :=
  let sign : Str := if q < 0 then ['-'] else []
  let a := q.natAbs
  let ip := a / 100
  let cents := a % 100
  let frac : Str :=
    if cents = 0 then ['0']
    else if cents % 10 = 0 then (toString (cents / 10)).data
    else padZ 2 cents
  sign ++ (toString ip).data ++ '.' :: frac

def csv_columns (bank_type : Str) : List Str :=
  if bank_type = "credit_card".data then
    ["posting_date".data, "date".data, "description".data, "amount".data,
     "transaction_type".data, "card_type".data, "card_number".data,
     "notes".data, "statement_date".data]
  else
    ["date".data, "description".data, "amount".data, "balance".data,
     "transaction_type".data]

def csvCell (t : Txn) (col : Str) : Str :=
  if col = "posting_date".data then csvQuote t.posting_date
  else if col = "date".data then csvQuote t.date
  else if col = "description".data then csvQuote t.description
  else if col = "amount".data then fmtCents t.amount
  else if col = "balance".data then fmtCents t.balance
  else if col = "transaction_type".data then csvQuote t.transaction_type
  else if col = "card_type".data then csvQuote t.card_type
  else if col = "card_number".data then csvQuote t.card_number
  else if col = "notes".data then csvQuote t.notes
  else if col = "statement_date".data then csvQuote t.statement_date
  else []

/-- `_generate_csv`: empty string for no transactions, else a header row and
one row per record over the bank's column projection. -/
def generate_csv (transactions : List Txn) (bank_type : Str) : Str :=
  if transactions = [] then []
  else
    let cols := csv_columns bank_type
    let header := List.intercalate [','] cols
    let rows := transactions.map (fun t => List.intercalate [','] (cols.map (csvCell t)))
    header ++ '\n' :: (rows.map (fun r => r ++ ['\n'])).flatten

/-! ## `process_pdf` -/

/-- The keys of `self.supported_banks`. -/
def supported_banks : List Str :=
  ["maybank".data, "cimb".data, "alliance".data, "credit_card".data]

/-- Dispatch to the bank's parser (the argument is always one of the four
supported keys). -/
def run_bank (bank : Str) (pages : List (List Str)) (stem : Str)
    (nowYear : Nat) : Except Str (List Txn) :=
  if bank = "maybank".data then .ok (parse_maybank pages)
  else if bank = "cimb".data then .ok (parse_cimb pages)
  else if bank = "alliance".data then .ok (parse_alliance pages)
  else parse_credit_card stem nowYear pages

/-- The result dict of `process_pdf`.  The success dict carries no `error`
key and the failure dict no `summary` key; both absences are `none`
(`processing_time` is wall-clock I/O and not modelled). -/
structure PdfResult where
  success : Bool
  bank_type : Option Str
  transactions : List Txn
  csv_content : Option Str
  summary : Option Summary
  error : Option Str
deriving DecidableEq

/-- Assemble the returned dict from the parser outcome (the tail of
`process_pdf`, including its `except` clause). -/
def finishResult (bank_type : Str) (res : Except Str (List Txn)) : PdfResult :=
  match res with
  | .ok transactions =>
    { success := true
      bank_type := some bank_type
      transactions := transactions
      csv_content := some (generate_csv transactions bank_type)
      summary := generate_summary transactions
      error := none }
  | .error e =>
    { success := false
      bank_type := none
      transactions := []
      csv_content := none
      summary := none
      error := some e }

/-- `all_text`: concatenation of each non-empty page text plus `"\n"`. -/
def all_text_of (pages : List (List Str)) : Str :=
  (pages.map (fun p => let t := joinLines p; if t = [] then [] else t ++ ['\n'])).flatten

/-- The bank type after the hint/detection choice: a provided hint is used
only when truthy (Python `if bank_type:`). -/
def detected_bank (pages : List (List Str)) (bank_type : Option Str) : Str :=
  match bank_type with
  | some h => if h ≠ [] then h else detect_bank_type (all_text_of pages)
  | none => detect_bank_type (all_text_of pages)

/-- The bank type after the supported-set validation (unsupported values
fall back to `maybank`). -/
def final_bank (pages : List (List Str)) (bank_type : Option Str) : Str :=
  if detected_bank pages bank_type ∈ supported_banks then detected_bank pages bank_type
  else "maybank".data

/-- `process_pdf` over already-extracted pages. -/
def process_pdf (pages : List (List Str)) (stem : Str) (nowYear : Nat)
    (bank_type : Option Str) : PdfResult :=
  finishResult (final_bank pages bank_type)
    (run_bank (final_bank pages bank_type) pages stem nowYear)

/-! ## Helper lemmas -/

lemma isPrefixB_map (f : Char → Char) :
    ∀ n h : Str, isPrefixB n h = true → isPrefixB (n.map f) (h.map f) = true := by
  intro n
  induction n with
  | nil => intro h _; cases h <;> rfl
  | cons a as ih =>
    intro h hp
    cases h with
    | nil => simp [isPrefixB] at hp
    | cons b bs =>
      simp only [isPrefixB, Bool.and_eq_true, beq_iff_eq] at hp
      simp only [List.map, isPrefixB, Bool.and_eq_true, beq_iff_eq]
      exact ⟨by rw [hp.1], ih bs hp.2⟩

lemma strIn_map (f : Char → Char) :
    ∀ n h : Str, strIn n h = true → strIn (n.map f) (h.map f) = true := by
  intro n h
  induction h with
  | nil =>
    intro hp
    simp only [strIn, List.isEmpty_iff] at hp
    subst hp
    rfl
  | cons b bs ih =>
    intro hp
    simp only [strIn, Bool.or_eq_true] at hp
    simp only [List.map, strIn, Bool.or_eq_true]
    rcases hp with hp | hp
    · exact Or.inl (isPrefixB_map f _ _ hp)
    · exact Or.inr (ih hp)

/-! ## Claim theorems -/

/-- Claim C3: any input text whose lower-casing contains a credit-card
indicator phrase is classified `credit_card` by `detect_bank_type`, even
when a bank-name keyword is also present; in particular a text containing
both `Maybank` and `TAX INVOICE` is classified `credit_card`. -/
theorem claim3_detector_precedence :
    (∀ text : Str,
      credit_card_indicators.any (fun i => strIn i (pyLower text)) = true →
      detect_bank_type text = "credit_card".data) ∧
    (∀ text : Str, strIn "Maybank".data text = true →
      strIn "TAX INVOICE".data text = true →
      detect_bank_type text = "credit_card".data) := by
  have main : ∀ text : Str,
      credit_card_indicators.any (fun i => strIn i (pyLower text)) = true →
      detect_bank_type text = "credit_card".data := by
    intro text h
    unfold detect_bank_type
    simp only [h, if_true]
  refine ⟨main, ?_⟩
  intro text _ hTI
  apply main
  apply List.any_eq_true.mpr
  refine ⟨"tax invoice".data, by simp [credit_card_indicators], ?_⟩
  have h1 := strIn_map Char.toLower _ _ hTI
  have h2 : ("TAX INVOICE".data.map Char.toLower) = "tax invoice".data := by decide
  rw [h2] at h1
  exact h1

/-- Witness for C3 at a concrete text containing both a bank name and a
card indicator. -/
theorem claim3_witness :
    strIn "Maybank".data "Maybank Berhad TAX INVOICE".data = true ∧
    detect_bank_type "Maybank Berhad TAX INVOICE".data = "credit_card".data :=
  ⟨by decide, claim3_detector_precedence.2 _ (by decide) (by decide)⟩

/-- Claim C7: the Maybank parser on the three-line page
`URUSNIAGA AKAUN / 01/01/2024 100.00 500.00 SALARY / ENDING BALANCE`
produces exactly one record: date `2024-01-01`, description `SALARY`,
amount `100.00` (10000 cents), balance `500.00`, type `debit`, bank
`maybank`. -/
theorem claim7_maybank_scenario :
    parse_maybank [["URUSNIAGA AKAUN".data,
                    "01/01/2024 100.00 500.00 SALARY".data,
                    "ENDING BALANCE".data]] =
      [{ date := "2024-01-01".data
         description := "SALARY".data
         amount := 10000
         balance := 50000
         transaction_type := "debit".data
         bank := "maybank".data }] := by
  decide

/-- Claim C5 (amended): inside the transaction section, a line that does
not match the transaction regex is first prefixed with any pending
continuation fragment, and when the combined line has no date it becomes
the new pending fragment in full — so consecutive non-matching lines
accumulate into the fragment (they are not kept one line at a time). -/
theorem claim5_maybank_continuation :
    ∀ (st : MState) (raw : Str), st.inSec = true →
      strIn "URUSNIAGA AKAUN".data (pyStrip raw) = false →
      strIn "ACCOUNT TRANSACTIONS".data (pyStrip raw) = false →
      strIn "ENDING BALANCE".data (pyStrip raw) = false →
      strIn "BAKI AKHIR".data (pyStrip raw) = false →
      ∀ comb : Str,
        comb = (if st.cont ≠ [] then st.cont ++ ' ' :: pyStrip raw else pyStrip raw) →
        reSearch maybankRE comb = none →
        comb ≠ [] →
        reSearch dateRE comb = none →
        (maybankStep st raw).cont = comb ∧ (maybankStep st raw).out = st.out := by
  intro st raw hin h1 h2 h3 h4 comb hcomb hre hne hdate
  subst hcomb
  unfold maybankStep
  simp only [h1, h2, h3, h4, hin, Bool.or_self, Bool.not_true, Bool.false_eq_true,
    if_false, hre, hdate, Option.isNone_none, Bool.and_true, ne_eq, hne,
    not_false_eq_true, if_true]
  simp [hne]

/-- Counterexample to C5 as stated: after the in-section lines `FOO` then
`BAR`, the pending fragment is the accumulated `FOO BAR`, not just the most
recent line `BAR`. -/
theorem claim5_cex :
    (["URUSNIAGA AKAUN".data, "FOO".data, "BAR".data].foldl maybankStep
      { inSec := false, cont := [], out := [] }).cont = "FOO BAR".data ∧
    "FOO BAR".data ≠ "BAR".data := by decide

/-- Witness for C5 at a concrete in-section state with a pending fragment. -/
theorem claim5_witness :
    (maybankStep { inSec := true, cont := "FOO".data, out := [] } "BAR".data).cont =
      "FOO BAR".data ∧
    (maybankStep { inSec := true, cont := "FOO".data, out := [] } "BAR".data).out = [] := by
  exact claim5_maybank_continuation { inSec := true, cont := "FOO".data, out := [] }
    "BAR".data (by decide) (by decide) (by decide) (by decide) (by decide)
    "FOO BAR".data (by decide) (by decide) (by decide) (by decide)

/-- Claim C6 (amended): a non-empty bank-type hint outside the supported
set bypasses detection and falls back to the Maybank parser with bank type
`maybank`; a hint in the supported set selects that bank's parser directly.
(An empty-string hint is falsy in Python and does not bypass detection.) -/
theorem claim6_bank_hint :
    (∀ pages stem yr (h : Str), h ≠ [] → h ∉ supported_banks →
      process_pdf pages stem yr (some h) =
        finishResult "maybank".data (.ok (parse_maybank pages))) ∧
    (∀ pages stem yr (h : Str), h ∈ supported_banks →
      process_pdf pages stem yr (some h) =
        finishResult h (run_bank h pages stem yr)) := by
  constructor
  · intro pages stem yr h hne hns
    unfold process_pdf final_bank detected_bank
    simp only [if_pos hne, if_neg hns]
    unfold run_bank
    simp
  · intro pages stem yr h hmem
    have hne : h ≠ [] := by
      simp only [supported_banks, List.mem_cons, List.not_mem_nil, or_false] at hmem
      rcases hmem with rfl | rfl | rfl | rfl <;> decide
    unfold process_pdf final_bank detected_bank
    simp only [if_pos hne, if_pos hmem]

/-- Counterexample to C6 as stated: the empty-string hint is a hint outside
the supported set, yet detection still runs and a CIMB-looking text is
routed to the CIMB parser, not to `maybank`. -/
theorem claim6_cex :
    ¬ (([] : Str) ∈ supported_banks) ∧
    (process_pdf [["hello cimb statement".data]] [] 0 (some [])).bank_type =
      some "cimb".data ∧
    some "cimb".data ≠ some "maybank".data := by decide

/-- Witness for C6 at a concrete unsupported hint and a concrete supported
hint. -/
theorem claim6_witness :
    process_pdf [["whatever".data]] [] 0 (some "hsbc".data) =
      finishResult "maybank".data (.ok (parse_maybank [["whatever".data]])) ∧
    process_pdf [["whatever".data]] [] 0 (some "cimb".data) =
      finishResult "cimb".data (run_bank "cimb".data [["whatever".data]] [] 0) := by
  exact ⟨claim6_bank_hint.1 _ _ _ _ (by decide) (by decide),
         claim6_bank_hint.2 _ _ _ _ (by decide)⟩

/-- Helper: the success result of `process_pdf` with zero transactions
carries no error, the empty CSV and the empty summary. -/
lemma finishResult_empty (b : Str) (r : Except Str (List Txn)) :
    (finishResult b r).success = true → (finishResult b r).transactions = [] →
    (finishResult b r).error = none ∧ (finishResult b r).csv_content = some [] ∧
    (finishResult b r).summary = none := by
  intro hs ht
  cases r with
  | ok txns =>
    simp only [finishResult] at ht ⊢
    subst ht
    simp [generate_csv, generate_summary]
  | error e => simp [finishResult] at hs

/-- Claim C9: zero transactions is a successful outcome: the empty list
generates the empty CSV and the empty summary, and a successful
`process_pdf` result with no transactions carries no error field. -/
theorem claim9_empty_result :
    (∀ bank : Str, generate_csv [] bank = []) ∧
    generate_summary [] = none ∧
    (∀ pages stem yr hint,
      (process_pdf pages stem yr hint).success = true →
      (process_pdf pages stem yr hint).transactions = [] →
      (process_pdf pages stem yr hint).error = none ∧
      (process_pdf pages stem yr hint).csv_content = some [] ∧
      (process_pdf pages stem yr hint).summary = none) := by
  refine ⟨fun bank => by simp [generate_csv], by simp [generate_summary], ?_⟩
  intro pages stem yr hint hs ht
  exact finishResult_empty _ _ hs ht

/-- Witness for C9 at a concrete empty document. -/
theorem claim9_witness :
    (process_pdf [["nothing to see".data]] [] 0 none).success = true ∧
    (process_pdf [["nothing to see".data]] [] 0 none).transactions = [] ∧
    (process_pdf [["nothing to see".data]] [] 0 none).error = none ∧
    (process_pdf [["nothing to see".data]] [] 0 none).csv_content = some [] ∧
    (process_pdf [["nothing to see".data]] [] 0 none).summary = none := by
  have h := claim9_empty_result.2.2 [["nothing to see".data]] [] 0 none
    (by decide) (by decide)
  exact ⟨by decide, by decide, h.1, h.2.1, h.2.2⟩

/-- Helper: when every record is a credit or a debit, the two filters
partition the list. -/
lemma credit_debit_count : ∀ ts : List Txn,
    (∀ t ∈ ts, t.transaction_type = "credit".data ∨ t.transaction_type = "debit".data) →
    (creditTxns ts).length + (debitTxns ts).length = ts.length := by
  intro ts h
  induction ts with
  | nil => rfl
  | cons a rest ih =>
    have ha := h a (List.mem_cons_self a rest)
    have ihr := ih (fun t ht => h t (List.mem_cons_of_mem a ht))
    simp only [creditTxns, debitTxns] at ihr ⊢
    rcases ha with hc | hd
    · have d1 : decide (a.transaction_type = "credit".data) = true := by
        rw [hc]; decide
      have d2 : decide (a.transaction_type = "debit".data) = false := by
        rw [hc]; decide
      simp [List.filter_cons, d1, d2]
      omega
    · have d1 : decide (a.transaction_type = "credit".data) = false := by
        rw [hd]; decide
      have d2 : decide (a.transaction_type = "debit".data) = true := by
        rw [hd]; decide
      simp [List.filter_cons, d1, d2]
      omega

/-- Claim C8: for a non-empty transaction list in which every record is a
credit or a debit, the generated summary satisfies
`credit_count + debit_count = total_transactions` and
`net_amount = round(total_credits - total_debits, 2)` (the totals being the
plain sums of the credit and debit amounts). -/
theorem claim8_summary :
    ∀ ts : List Txn, ts ≠ [] →
      (∀ t ∈ ts, t.transaction_type = "credit".data ∨ t.transaction_type = "debit".data) →
      ∀ s, generate_summary ts = some s →
        s.credit_count + s.debit_count = s.total_transactions ∧
        s.net_amount = pyRound2 (total_credits_of ts - total_debits_of ts) := by
  intro ts hne h s hs
  unfold generate_summary at hs
  rw [if_neg hne] at hs
  injection hs with hs
  subst hs
  exact ⟨credit_debit_count ts h, rfl⟩

/-- Witness for C8 at a concrete two-record list. -/
theorem claim8_witness :
    generate_summary
      [{ date := "2024-01-01".data, transaction_type := "credit".data, amount := 10000 },
       { date := "2024-01-02".data, transaction_type := "debit".data, amount := -3000 }] =
      some { total_transactions := 2, credit_count := 1, debit_count := 1,
             total_credits := 10000, total_debits := -3000, net_amount := 13000,
             date_range := ("2024-01-01".data, "2024-01-02".data) } ∧
    (1 : Nat) + 1 = 2 ∧
    (13000 : ℤ) = pyRound2 (total_credits_of
      [{ date := "2024-01-01".data, transaction_type := "credit".data, amount := 10000 },
       { date := "2024-01-02".data, transaction_type := "debit".data, amount := -3000 }] -
      total_debits_of
      [{ date := "2024-01-01".data, transaction_type := "credit".data, amount := 10000 },
       { date := "2024-01-02".data, transaction_type := "debit".data, amount := -3000 }]) := by
  refine ⟨by decide, ?_⟩
  have h := claim8_summary
    [{ date := "2024-01-01".data, transaction_type := "credit".data, amount := 10000 },
     { date := "2024-01-02".data, transaction_type := "debit".data, amount := -3000 }]
    (by decide) (by decide)
    { total_transactions := 2, credit_count := 1, debit_count := 1,
      total_credits := 10000, total_debits := -3000, net_amount := 13000,
      date_range := ("2024-01-01".data, "2024-01-02".data) } (by decide)
  exact h

/-- Claim C4 (amended): only the first Alliance amount pattern
(description + amount + balance + CR/DR) keeps the record open: it sets
`has_amounts` and leaves `is_parsing` true, and continuation lines then only
append to the description.  The triple / pair / single-amount fallbacks mark
the record complete (`is_parsing := false`) and do not set `has_amounts`. -/
theorem claim4_alliance_amounts :
    (∀ (t : Txn) (line : Str), (reSearch alliancePat1 line).isSome = true →
      (parse_alliance_transaction_line t line).has_amounts = true ∧
      (parse_alliance_transaction_line t line).is_parsing = true) ∧
    (∀ (t : Txn) (line : Str), reSearch alliancePat1 line = none →
      ((reSearch allianceTripleRE line).isSome = true ∨
       (reSearch alliancePairRE line).isSome = true ∨
       (reSearch allianceSingleRE line).isSome = true) →
      (parse_alliance_transaction_line t line).is_parsing = false ∧
      (parse_alliance_transaction_line t line).has_amounts = t.has_amounts) ∧
    (∀ (t : Txn) (line : Str), t.has_amounts = true →
      (parse_alliance_continuation_line t line).amount = t.amount ∧
      (parse_alliance_continuation_line t line).balance = t.balance ∧
      (parse_alliance_continuation_line t line).transaction_type = t.transaction_type ∧
      (parse_alliance_continuation_line t line).is_parsing = t.is_parsing ∧
      (parse_alliance_continuation_line t line).has_amounts = true ∧
      (parse_alliance_continuation_line t line).description =
        (if t.description ≠ [] then t.description ++ ' ' :: pyStrip line
         else pyStrip line)) := by
  refine ⟨?_, ?_, ?_⟩
  · intro t line h
    cases heq : reSearch alliancePat1 line with
    | none => rw [heq] at h; simp at h
    | some m =>
      unfold parse_alliance_transaction_line
      rw [heq]
      exact ⟨rfl, rfl⟩
  · intro t line h1 hdisj
    unfold parse_alliance_transaction_line
    rw [h1]
    cases h2 : reSearch allianceTripleRE line with
    | some m =>
      refine ⟨rfl, ?_⟩
      simp only [apply_ite Txn.has_amounts]
      split <;> try rfl
      split <;> rfl
    | none =>
      cases h3 : reSearch alliancePairRE line with
      | some m =>
        refine ⟨rfl, ?_⟩
        simp only [apply_ite Txn.has_amounts]
        split <;> rfl
      | none =>
        cases h4 : reSearch allianceSingleRE line with
        | some m =>
          refine ⟨rfl, ?_⟩
          simp only [apply_ite Txn.has_amounts]
          split <;> rfl
        | none =>
          rw [h2, h3, h4] at hdisj
          simp at hdisj
  · intro t line h
    unfold parse_alliance_continuation_line
    rw [h]
    exact ⟨rfl, rfl, rfl, rfl, rfl, rfl⟩

/-- Counterexample to C4 as stated: on `PAYMENT 100.00 200.00` the
amount+balance pair pattern matches, yet the record is closed
(`is_parsing := false`) and `has_amounts` stays unset. -/
theorem claim4_cex :
    (reSearch alliancePairRE "PAYMENT 100.00 200.00".data).isSome = true ∧
    ¬ ((parse_alliance_transaction_line
          { transaction_type := "debit".data, bank := "alliance".data, is_parsing := true }
          "PAYMENT 100.00 200.00".data).has_amounts = true ∧
       (parse_alliance_transaction_line
          { transaction_type := "debit".data, bank := "alliance".data, is_parsing := true }
          "PAYMENT 100.00 200.00".data).is_parsing = true) := by decide

/-- Witness for C4 at a concrete CR-marked line (first pattern). -/
theorem claim4_witness :
    (reSearch alliancePat1 "TRANSFER 50.00 1000.00 CR".data).isSome = true ∧
    (parse_alliance_transaction_line
       { transaction_type := "debit".data, bank := "alliance".data, is_parsing := true }
       "TRANSFER 50.00 1000.00 CR".data).has_amounts = true ∧
    (parse_alliance_transaction_line
       { transaction_type := "debit".data, bank := "alliance".data, is_parsing := true }
       "TRANSFER 50.00 1000.00 CR".data).is_parsing = true := by
  have h := claim4_alliance_amounts.1
    { transaction_type := "debit".data, bank := "alliance".data, is_parsing := true }
    "TRANSFER 50.00 1000.00 CR".data (by decide)
  exact ⟨by decide, h.1, h.2⟩

/-! Sign-consistency lemmas for C1. -/

lemma pyAbs_nonneg (i : ℤ) : 0 ≤ pyAbs i := Int.natCast_nonneg _

lemma neg_pyAbs_nonpos (i : ℤ) : -pyAbs i ≤ 0 := neg_nonpos.mpr (pyAbs_nonneg i)

/-- Sign agreement between `transaction_type` and `amount`. -/
def sign_consistent (t : Txn) : Prop :=
  (t.transaction_type = "debit".data → t.amount ≤ 0) ∧
  (t.transaction_type = "credit".data → 0 ≤ t.amount)

lemma cimbSignOne_sign (prev : ℤ) (t : Txn) : sign_consistent (cimbSignOne prev t) := by
  unfold cimbSignOne sign_consistent
  split
  · exact ⟨fun h => absurd (show "credit".data = "debit".data from h) (by decide),
           fun _ => pyAbs_nonneg _⟩
  · exact ⟨fun _ => neg_pyAbs_nonpos _,
           fun h => absurd (show "debit".data = "credit".data from h) (by decide)⟩

lemma cimbSignFirst_sign (t : Txn) : sign_consistent (cimbSignFirst t) := by
  unfold cimbSignFirst sign_consistent
  split
  · next hgt =>
    refine ⟨fun h => absurd (show "credit".data = "debit".data from h) (by decide),
            fun _ => ?_⟩
    show (0 : ℤ) ≤ t.amount
    omega
  · exact ⟨fun _ => neg_pyAbs_nonpos _,
           fun h => absurd (show "debit".data = "credit".data from h) (by decide)⟩

lemma cimbSignRest_sign : ∀ (l : List Txn) (prev : ℤ), ∀ t ∈ cimbSignRest prev l,
    sign_consistent t := by
  intro l
  induction l with
  | nil => intro prev t ht; simp [cimbSignRest] at ht
  | cons a rest ih =>
    intro prev t ht
    rcases List.mem_cons.mp ht with rfl | hmem
    · exact cimbSignOne_sign _ _
    · exact ih _ t hmem

lemma cimbSign_sign : ∀ (l : List Txn), ∀ t ∈ cimbSign l, sign_consistent t := by
  intro l t ht
  cases l with
  | nil => simp [cimbSign] at ht
  | cons a rest =>
    rcases List.mem_cons.mp ht with rfl | hmem
    · exact cimbSignFirst_sign _
    · exact cimbSignRest_sign _ _ t hmem

lemma finalize_cimb_sign (ts : List Txn) : ∀ t ∈ finalize_cimb_transactions ts,
    sign_consistent t := fun t ht => cimbSign_sign _ t ht

lemma allianceFinalizeOne_sign (t : Txn) : sign_consistent (allianceFinalizeOne t) := by
  unfold allianceFinalizeOne sign_consistent
  split
  · next h1 =>
    refine ⟨fun _ => ?_, fun hc => absurd (h1.1.symm.trans hc) (by decide)⟩
    show -(allianceClean t).amount ≤ 0
    have := h1.2
    omega
  · next h1 =>
    split
    · next h2 =>
      exact ⟨fun hd => absurd (h2.1.symm.trans hd) (by decide), fun _ => pyAbs_nonneg _⟩
    · next h2 =>
      constructor
      · intro hd
        show (allianceClean t).amount ≤ 0
        by_contra hb
        exact h1 ⟨hd, by omega⟩
      · intro hc
        show 0 ≤ (allianceClean t).amount
        by_contra hb
        exact h2 ⟨hc, by omega⟩

lemma finalize_alliance_sign (ts : List Txn) : ∀ t ∈ finalize_alliance_transactions ts,
    sign_consistent t := by
  intro t ht
  unfold finalize_alliance_transactions at ht
  rcases List.mem_map.mp ht with ⟨x, _, rfl⟩
  exact allianceFinalizeOne_sign x

/-- Claim C1 (amended): every record returned by the CIMB or Alliance
parser satisfies the sign agreement (`debit` ⇒ amount ≤ 0, `credit` ⇒
amount ≥ 0); the Maybank parser violates it by design (positive amounts are
labelled `debit`), so it is excluded. -/
theorem claim1_sign_invariant :
    (∀ pages, ∀ t ∈ parse_cimb pages,
      (t.transaction_type = "debit".data → t.amount ≤ 0) ∧
      (t.transaction_type = "credit".data → 0 ≤ t.amount)) ∧
    (∀ pages, ∀ t ∈ parse_alliance pages,
      (t.transaction_type = "debit".data → t.amount ≤ 0) ∧
      (t.transaction_type = "credit".data → 0 ≤ t.amount)) := by
  constructor
  · intro pages t ht
    exact finalize_cimb_sign _ t ht
  · intro pages t ht
    exact finalize_alliance_sign _ t ht

/-- Counterexample to C1 as stated: the Maybank parser emits a `debit`
record with a strictly positive amount. -/
theorem claim1_cex :
    ¬ (∀ t ∈ parse_maybank [["URUSNIAGA AKAUN".data,
          "01/01/2024 100.00 500.00 SALARY".data, "ENDING BALANCE".data]],
        t.transaction_type = "debit".data → t.amount ≤ 0) := by decide

/-- Witness for C1 at a concrete CIMB statement whose second record is a
debit. -/
theorem claim1_witness :
    ((parse_cimb [["Date Description Cheque / Ref No Withdrawal Deposits Tax Balance".data,
      "01/02/2024 TRANSFER IN 200.00 1,000.00".data,
      "02/02/2024 PAYMENT 300.00 700.00".data]]).getD 1 {}).amount ≤ 0 := by
  have h := (claim1_sign_invariant.1
    [["Date Description Cheque / Ref No Withdrawal Deposits Tax Balance".data,
      "01/02/2024 TRANSFER IN 200.00 1,000.00".data,
      "02/02/2024 PAYMENT 300.00 700.00".data]]
    ((parse_cimb [["Date Description Cheque / Ref No Withdrawal Deposits Tax Balance".data,
      "01/02/2024 TRANSFER IN 200.00 1,000.00".data,
      "02/02/2024 PAYMENT 300.00 700.00".data]]).getD 1 {}) (by decide)).1 (by decide)
  exact h

/-! Indexed characterization of the CIMB sign-inference loop, for C2. -/

lemma cimbSignOne_balance (prev : ℤ) (t : Txn) :
    (cimbSignOne prev t).balance = t.balance := by
  unfold cimbSignOne
  split <;> rfl

lemma cimbSignFirst_balance (t : Txn) : (cimbSignFirst t).balance = t.balance := by
  unfold cimbSignFirst
  split <;> rfl

lemma cimbSignRest_length : ∀ (l : List Txn) (prev : ℤ),
    (cimbSignRest prev l).length = l.length := by
  intro l
  induction l with
  | nil => intro prev; rfl
  | cons a rest ih =>
    intro prev
    simp only [cimbSignRest, List.length_cons, ih]

lemma cimbSign_length (l : List Txn) : (cimbSign l).length = l.length := by
  cases l with
  | nil => rfl
  | cons a rest => simp only [cimbSign, List.length_cons, cimbSignRest_length]

lemma getD_map_txn (f : Txn → Txn) : ∀ (l : List Txn) (i : Nat), i < l.length →
    (l.map f).getD i {} = f (l.getD i {}) := by
  intro l
  induction l with
  | nil => intro i h; simp at h
  | cons a rest ih =>
    intro i h
    cases i with
    | zero => rfl
    | succ j =>
      simp only [List.map, List.getD_cons_succ]
      exact ih j (by simpa using h)

lemma cimbSignRest_getD : ∀ (l : List Txn) (prev : ℤ) (i : Nat), i < l.length →
    (cimbSignRest prev l).getD i {} =
      cimbSignOne (if i = 0 then prev else (l.getD (i - 1) {}).balance) (l.getD i {}) := by
  intro l
  induction l with
  | nil => intro prev i h; simp at h
  | cons a rest ih =>
    intro prev i h
    cases i with
    | zero => rfl
    | succ j =>
      have hj : j < rest.length := by simpa using h
      show (cimbSignRest (cimbSignOne prev a).balance rest).getD j {} = _
      rw [ih _ j hj, cimbSignOne_balance]
      cases j with
      | zero => simp
      | succ k => simp [List.getD_cons_succ]

lemma cimbSign_getD_zero (l : List Txn) (h : 0 < l.length) :
    (cimbSign l).getD 0 {} = cimbSignFirst (l.getD 0 {}) := by
  cases l with
  | nil => simp at h
  | cons a rest => rfl

lemma cimbSign_getD_succ (l : List Txn) (i : Nat) (h1 : 1 ≤ i) (h2 : i < l.length) :
    (cimbSign l).getD i {} =
      cimbSignOne ((l.getD (i - 1) {}).balance) (l.getD i {}) := by
  cases l with
  | nil => simp at h2
  | cons a rest =>
    cases i with
    | zero => omega
    | succ j =>
      have hj : j < rest.length := by simpa using h2
      show (cimbSignRest (cimbSignFirst a).balance rest).getD j {} = _
      rw [cimbSignRest_getD rest _ j hj, cimbSignFirst_balance]
      cases j with
      | zero => simp
      | succ k => simp [List.getD_cons_succ]

/-- Claim C2: CIMB finalization on a list of complete records sets, for the
first record, `credit` when `balance > balance - amount` and otherwise
`debit` with the amount replaced by `-abs(amount)` (the amount is untouched
in the credit branch); and for every record `i ≥ 1`, `credit` with
`abs(amount)` when `balance[i] > balance[i-1]`, else `debit` with
`-abs(amount)`. -/
theorem claim2_cimb_finalize :
    ∀ ts : List Txn, (∀ t ∈ ts, t.is_parsing = false) →
      (finalize_cimb_transactions ts).length = ts.length ∧
      (0 < ts.length →
        ((ts.getD 0 {}).balance > (ts.getD 0 {}).balance - (ts.getD 0 {}).amount →
          ((finalize_cimb_transactions ts).getD 0 {}).transaction_type = "credit".data ∧
          ((finalize_cimb_transactions ts).getD 0 {}).amount = (ts.getD 0 {}).amount) ∧
        (¬ ((ts.getD 0 {}).balance > (ts.getD 0 {}).balance - (ts.getD 0 {}).amount) →
          ((finalize_cimb_transactions ts).getD 0 {}).transaction_type = "debit".data ∧
          ((finalize_cimb_transactions ts).getD 0 {}).amount =
            -pyAbs ((ts.getD 0 {}).amount))) ∧
      (∀ i : Nat, 1 ≤ i → i < ts.length →
        ((ts.getD i {}).balance > (ts.getD (i - 1) {}).balance →
          ((finalize_cimb_transactions ts).getD i {}).transaction_type = "credit".data ∧
          ((finalize_cimb_transactions ts).getD i {}).amount =
            pyAbs ((ts.getD i {}).amount)) ∧
        (¬ ((ts.getD i {}).balance > (ts.getD (i - 1) {}).balance) →
          ((finalize_cimb_transactions ts).getD i {}).transaction_type = "debit".data ∧
          ((finalize_cimb_transactions ts).getD i {}).amount =
            -pyAbs ((ts.getD i {}).amount))) := by
  intro ts hts
  have hfilter : ts.filter (fun t => !t.is_parsing) = ts := by
    apply List.filter_eq_self.mpr
    intro a ha
    simp [hts a ha]
  have hfin : finalize_cimb_transactions ts = cimbSign (ts.map cimbClean) := by
    unfold finalize_cimb_transactions
    rw [hfilter]
  refine ⟨?_, ?_, ?_⟩
  · rw [hfin, cimbSign_length, List.length_map]
  · intro h0
    have hg : (finalize_cimb_transactions ts).getD 0 {} =
        cimbSignFirst (cimbClean (ts.getD 0 {})) := by
      rw [hfin, cimbSign_getD_zero _ (by simpa using h0), getD_map_txn _ _ _ h0]
    rw [hg]
    constructor
    · intro hcond
      unfold cimbSignFirst
      split
      · exact ⟨rfl, rfl⟩
      · next hc => exact absurd hcond hc
    · intro hcond
      unfold cimbSignFirst
      split
      · next hc => exact absurd hc hcond
      · exact ⟨rfl, rfl⟩
  · intro i h1 h2
    have hg : (finalize_cimb_transactions ts).getD i {} =
        cimbSignOne ((ts.getD (i - 1) {}).balance) (cimbClean (ts.getD i {})) := by
      rw [hfin, cimbSign_getD_succ _ i h1 (by simpa using h2),
          getD_map_txn _ _ _ h2, getD_map_txn _ _ _ (by omega)]
      rfl
    rw [hg]
    constructor
    · intro hcond
      unfold cimbSignOne
      split
      · exact ⟨rfl, rfl⟩
      · next hc => exact absurd hcond hc
    · intro hcond
      unfold cimbSignOne
      split
      · next hc => exact absurd hc hcond
      · exact ⟨rfl, rfl⟩

/-- Witness for C2 at a concrete two-record list. -/
theorem claim2_witness :
    ((finalize_cimb_transactions
        [{ balance := 100000, amount := 20000, is_parsing := false },
         { balance := 70000, amount := 30000, is_parsing := false }]).getD 1 {}).amount =
      -pyAbs 30000 := by
  have h := ((claim2_cimb_finalize
    [{ balance := 100000, amount := 20000, is_parsing := false },
     { balance := 70000, amount := 30000, is_parsing := false }]
    (by decide)).2.2 1 (by decide) (by decide)).2 (by decide)
  exact h.2

/-! Characterization of the credit-card scanning loop, for C10. -/

/-- Helper: one credit-card loop iteration either leaves the output alone or
appends a single record tagged with the active card and a non-negative
amount. -/
lemma ccStep_out : ∀ (year sd l : Str) (rest : List Str) (st st' : CCSt),
    ccStep year sd l rest st = .ok st' →
    st'.out = st.out ∨
    ∃ c t, st'.card = some c ∧ st'.out = st.out ++ [t] ∧
      t.card_type = c.type ∧ t.card_number = c.masked ∧ 0 ≤ t.amount := by
  intro year sd l rest st st' h
  unfold ccStep at h
  simp only [] at h
  split at h
  · injection h with h; subst h; left; rfl
  · split at h
    · injection h with h; subst h; left; rfl
    · split at h
      · injection h with h; subst h; left; rfl
      · next hguard =>
        split at h
        · injection h with h; subst h; left; rfl
        · split at h
          · injection h with h; subst h; left; rfl
          · split at h
            · injection h with h; subst h; left; rfl
            · split at h
              · injection h with h; subst h; left; rfl
              · split at h
                · exact Except.noConfusion h
                · injection h with h; subst h
                  right
                  have hcard : ∃ c, ccCardUpdate (pyStrip l) rest st.card = some c := by
                    cases hx : ccCardUpdate (pyStrip l) rest st.card with
                    | none => exact absurd (by rw [hx]; simp) hguard
                    | some c => exact ⟨c, rfl⟩
                  obtain ⟨c, hc⟩ := hcard
                  refine ⟨c, _, hc, rfl, ?_, ?_, ?_⟩
                  · show ((ccCardUpdate (pyStrip l) rest st.card).map Card.type).getD [] = c.type
                    rw [hc]
                    rfl
                  · show ((ccCardUpdate (pyStrip l) rest st.card).map Card.masked).getD [] = c.masked
                    rw [hc]
                    rfl
                  · exact pyAbs_nonneg _

lemma ccGo_out : ∀ (year sd : Str) (lines : List Str) (st st' : CCSt),
    ccGo year sd lines st = .ok st' →
    ∀ t ∈ st'.out, t ∈ st.out ∨ 0 ≤ t.amount := by
  intro year sd lines
  induction lines with
  | nil =>
    intro st st' h t ht
    injection h with h
    subst h
    exact Or.inl ht
  | cons l rest ih =>
    intro st st' h t ht
    unfold ccGo at h
    cases hstep : ccStep year sd l rest st with
    | error e => rw [hstep] at h; exact Except.noConfusion h
    | ok st1 =>
      rw [hstep] at h
      rcases ih st1 st' h t ht with hmem | hge
      · rcases ccStep_out year sd l rest st st1 hstep with hout | ⟨c, t2, _, hout, _, _, hamt⟩
        · rw [hout] at hmem
          exact Or.inl hmem
        · rw [hout] at hmem
          rcases List.mem_append.mp hmem with hmem | hmem
          · exact Or.inl hmem
          · have := List.mem_singleton.mp hmem
            subst this
            exact Or.inr hamt
      · exact Or.inr hge

lemma ccGoPages_out : ∀ (year sd : Str) (pages : List (List Str)) (st st' : CCSt),
    ccGoPages year sd pages st = .ok st' →
    ∀ t ∈ st'.out, t ∈ st.out ∨ 0 ≤ t.amount := by
  intro year sd pages
  induction pages with
  | nil =>
    intro st st' h t ht
    injection h with h
    subst h
    exact Or.inl ht
  | cons p ps ih =>
    intro st st' h t ht
    unfold ccGoPages at h
    split at h
    · exact ih st st' h t ht
    · cases hgo : ccGo year sd p st with
      | error e => rw [hgo] at h; exact Except.noConfusion h
      | ok st1 =>
        rw [hgo] at h
        rcases ih st1 st' h t ht with hmem | hge
        · exact ccGo_out year sd p st st1 hgo t hmem
        · exact Or.inr hge

lemma ccStep_nocard : ∀ (year sd l : Str) (rest : List Str) (st : CCSt),
    st.card = none → ccCardUpdate (pyStrip l) rest none = none →
    ∃ st', ccStep year sd l rest st = .ok st' ∧ st'.out = st.out ∧ st'.card = none := by
  intro year sd l rest st hcard hupd
  unfold ccStep
  simp only []
  split
  · exact ⟨st, rfl, rfl, hcard⟩
  · rw [hcard, hupd]
    split
    · exact ⟨_, rfl, rfl, rfl⟩
    · simp only [Option.isNone_none, Bool.or_true, if_true]
      exact ⟨_, rfl, rfl, rfl⟩

lemma ccGo_nocard : ∀ (year sd : Str) (lines : List Str) (st : CCSt),
    st.card = none →
    (∀ (l : Str) (rest : List Str), l :: rest <:+ lines →
      ccCardUpdate (pyStrip l) rest none = none) →
    ∃ st', ccGo year sd lines st = .ok st' ∧ st'.out = st.out ∧ st'.card = none := by
  intro year sd lines
  induction lines with
  | nil => intro st hc _; exact ⟨st, rfl, rfl, hc⟩
  | cons l rest ih =>
    intro st hc hall
    obtain ⟨st1, hstep, hout, hcard⟩ := ccStep_nocard year sd l rest st hc
      (hall l rest List.suffix_rfl)
    obtain ⟨st2, hgo, hout2, hcard2⟩ := ih st1 hcard
      (fun l2 r2 hsuf => hall l2 r2 (hsuf.trans (List.suffix_cons l rest)))
    refine ⟨st2, ?_, hout2.trans hout, hcard2⟩
    unfold ccGo
    rw [hstep]
    exact hgo

lemma ccGoPages_nocard : ∀ (year sd : Str) (pages : List (List Str)) (st : CCSt),
    st.card = none →
    (∀ p ∈ pages, ∀ (l : Str) (rest : List Str), l :: rest <:+ p →
      ccCardUpdate (pyStrip l) rest none = none) →
    ∃ st', ccGoPages year sd pages st = .ok st' ∧ st'.out = st.out ∧ st'.card = none := by
  intro year sd pages
  induction pages with
  | nil => intro st hc _; exact ⟨st, rfl, rfl, hc⟩
  | cons p ps ih =>
    intro st hc hall
    unfold ccGoPages
    split
    · exact ih st hc (fun q hq => hall q (List.mem_cons_of_mem p hq))
    · obtain ⟨st1, hgo, hout, hcard⟩ := ccGo_nocard year sd p st hc
        (hall p (List.mem_cons_self p ps))
      obtain ⟨st2, hgos, hout2, hcard2⟩ := ih st1 hcard
        (fun q hq => hall q (List.mem_cons_of_mem p hq))
      refine ⟨st2, ?_, hout2.trans hout, hcard2⟩
      rw [hgo]
      exact hgos

/-- Claim C10: the credit-card parser emits records only inside an active
card context: every emitted record stores a non-negative amount
(an unsigned magnitude); each loop iteration either leaves the output
unchanged or appends one record carrying the type and masked number of the
currently-detected card; and a document in which no line ever triggers card
detection yields no records at all. -/
theorem claim10_credit_card :
    (∀ (stem : Str) (yr : Nat) (pages : List (List Str)) (out : List Txn),
      parse_credit_card stem yr pages = .ok out →
      ∀ t ∈ out, 0 ≤ t.amount) ∧
    (∀ (year sd l : Str) (rest : List Str) (st st' : CCSt),
      ccStep year sd l rest st = .ok st' →
      st'.out = st.out ∨
      ∃ c t, st'.card = some c ∧ st'.out = st.out ++ [t] ∧
        t.card_type = c.type ∧ t.card_number = c.masked ∧ 0 ≤ t.amount) ∧
    (∀ (stem : Str) (yr : Nat) (pages : List (List Str)) (out : List Txn),
      parse_credit_card stem yr pages = .ok out →
      (∀ p ∈ pages, ∀ (l : Str) (rest : List Str), l :: rest <:+ p →
        ccCardUpdate (pyStrip l) rest none = none) →
      out = []) := by
  refine ⟨?_, ccStep_out, ?_⟩
  · intro stem yr pages out hok t ht
    unfold parse_credit_card at hok
    cases pages with
    | nil => exact Except.noConfusion hok
    | cons p0 ps =>
      simp only [] at hok
      cases hgo : ccGoPages
          (match reSearch ccYearRE stem with
           | some m => m.cap 1
           | none => (toString yr).data)
          (match reSearch ccStatementDateRE (joinLines p0) with
           | some m => m.cap 1
           | none => [])
          (p0 :: ps) ⟨false, none, []⟩ with
      | error e => rw [hgo] at hok; exact Except.noConfusion hok
      | ok stf =>
        rw [hgo] at hok
        injection hok with hok
        subst hok
        rcases ccGoPages_out _ _ _ _ _ hgo t ht with hmem | hge
        · simp at hmem
        · exact hge
  · intro stem yr pages out hok hall
    unfold parse_credit_card at hok
    cases pages with
    | nil => exact Except.noConfusion hok
    | cons p0 ps =>
      simp only [] at hok
      obtain ⟨stf, hgo, hout, _⟩ := ccGoPages_nocard
        (match reSearch ccYearRE stem with
         | some m => m.cap 1
         | none => (toString yr).data)
        (match reSearch ccStatementDateRE (joinLines p0) with
         | some m => m.cap 1
         | none => [])
        (p0 :: ps) ⟨false, none, []⟩ rfl hall
      rw [hgo] at hok
      injection hok with hok
      subst hok
      exact hout

set_option maxRecDepth 100000 in
/-- Witness for C10 at a concrete four-line statement. -/
theorem claim10_witness :
    0 ≤ (((parse_credit_card "x2024".data 2026
      [["Posting Date / Transaction Date / Transaction Description /".data,
        "MUHAMMAD MAHERILHAM X".data,
        "MASTERCARD A : 1111 2222 3333 4444".data,
        "01/02 03/04 SHOP 10.00".data]]).toOption.getD []).getD 0 {}).amount := by
  exact claim10_credit_card.1 "x2024".data 2026
    [["Posting Date / Transaction Date / Transaction Description /".data,
      "MUHAMMAD MAHERILHAM X".data,
      "MASTERCARD A : 1111 2222 3333 4444".data,
      "01/02 03/04 SHOP 10.00".data]]
    ((parse_credit_card "x2024".data 2026
      [["Posting Date / Transaction Date / Transaction Description /".data,
        "MUHAMMAD MAHERILHAM X".data,
        "MASTERCARD A : 1111 2222 3333 4444".data,
        "01/02 03/04 SHOP 10.00".data]]).toOption.getD [])
    (by decide)
    (((parse_credit_card "x2024".data 2026
      [["Posting Date / Transaction Date / Transaction Description /".data,
        "MUHAMMAD MAHERILHAM X".data,
        "MASTERCARD A : 1111 2222 3333 4444".data,
        "01/02 03/04 SHOP 10.00".data]]).toOption.getD []).getD 0 {})
    (by decide)

end PdfService
